import Mathlib

/-!
# Verification of `multi-bot-inteligente-v2`

Shallow embedding, in Lean 4, of the pure logic of the repository
`Sundingalue/multi-bot-inteligent-v2` (a Flask multi-channel chatbot server),
together with proofs of the behavioural claims made by its specification.

Embedded components:
* `helpers.py` — `canonize_phone`, `wants_link` (intent keyword matching);
* `instagram_webhook.py` — `_seen_mid` de-duplication and the `handle_one`
  entry guard;
* `voice_webrtc_bridge.py` — μ-law codec, linear resampler, and the
  commit / turn-taking state machine of the Twilio↔OpenAI stream loop;
* `state.py` — `hydrate_session_from_firebase`;
* `utils/bot_loader.py` — tarjeta-inteligente configuration loading.

Python strings are modelled as `List Char` (with `String` wrappers),
machine integers as `Nat`/`Int`, wall-clock instants as `ℚ` seconds,
Python dicts as association lists, and the filesystem of bot configuration
files as an explicit association list parameter.  `isdigit` and the string
helpers of the loader are modelled at ASCII granularity; the `\w` class and
`IGNORECASE` folding of `wants_link` use the exact Unicode tables of
CPython's `re`, embedded as range / equivalence tables.
-/

set_option maxRecDepth 100000

namespace MultiBot

/-! ## `helpers.canonize_phone` (helpers.py, lines 85-97)

`canonize_phone` strips a channel scheme from the front of the string,
keeps only digit characters, then normalises 10/11-digit US numbers to
`+1XXXXXXXXXX`; any other digit string is returned with a `+` prepended. -/

/-- The channel schemes stripped (in this order) at the top of
`canonize_phone`: `whatsapp:`, `tel:`, `sip:`, `client:`. -/
def PHONE_SCHEMES : List (List Char) :=
  ["whatsapp:".toList, "tel:".toList, "sip:".toList, "client:".toList]

/-- The scheme-stripping loop `for p in (...): if s.startswith(p): s = s[len(p):]`. -/
def stripSchemes (l : List Char) : List Char :=
  PHONE_SCHEMES.foldl (fun acc p => if p.isPrefixOf acc then acc.drop p.length else acc) l

/-- Python `str.strip()`: remove leading and trailing whitespace. -/
def pyStrip (l : List Char) : List Char :=
  ((l.dropWhile Char.isWhitespace).reverse.dropWhile Char.isWhitespace).reverse

/-- The return branches of `canonize_phone` (helpers.py, lines 91-97), applied
to the extracted digit characters: empty stays empty, `1`-led 11-digit and
10-digit US numbers are normalised, anything else just gains a `+`. -/
def phoneFromDigits (digits : List Char) : List Char :=
  if digits = [] then []
  else if digits.length = 11 ∧ digits.head? = some '1' then '+' :: digits
  else if digits.length = 10 then '+' :: ('1' :: digits)
  else '+' :: digits

/-- Core of `canonize_phone` on character lists (helpers.py, lines 85-97):
strip whitespace, strip channel schemes, keep the digits, format. -/
def canonizePhoneChars (l : List Char) : List Char :=
  phoneFromDigits ((stripSchemes (pyStrip l)).filter Char.isDigit)

/-- `helpers.canonize_phone`. -/
def canonize_phone (s : String) : String :=
  String.mk (canonizePhoneChars s.toList)

/-! ### Character-class facts -/

lemma isDigit_not_isWhitespace {c : Char} (h : c.isDigit = true) : c.isWhitespace = false := by
  revert h
  simp [Char.isDigit, Char.isWhitespace, Char.le_def, Char.ext_iff]
  intro h1 h2
  refine ⟨⟨⟨?_, ?_⟩, ?_⟩, ?_⟩ <;> (intro hc; rw [hc] at h1; simp at h1)

lemma isWhitespace_not_isDigit {c : Char} (h : c.isWhitespace = true) : c.isDigit = false := by
  cases hd : c.isDigit
  · rfl
  · rw [isDigit_not_isWhitespace hd] at h; exact absurd h (by simp)

/-! ### The digit subsequence is untouched by stripping -/

lemma filter_isDigit_dropWhile_ws (l : List Char) :
    (l.dropWhile Char.isWhitespace).filter Char.isDigit = l.filter Char.isDigit := by
  have h0 : (l.takeWhile Char.isWhitespace).filter Char.isDigit = [] := by
    rw [List.filter_eq_nil_iff]
    intro a ha
    simp [isWhitespace_not_isDigit (List.mem_takeWhile_imp ha)]
  conv_rhs => rw [← List.takeWhile_append_dropWhile Char.isWhitespace l]
  rw [List.filter_append, h0, List.nil_append]

lemma filter_isDigit_pyStrip (l : List Char) :
    (pyStrip l).filter Char.isDigit = l.filter Char.isDigit := by
  unfold pyStrip
  rw [List.filter_reverse, filter_isDigit_dropWhile_ws, List.filter_reverse,
    filter_isDigit_dropWhile_ws, List.reverse_reverse]

lemma filter_isDigit_stripOne (p acc : List Char) (hp : ∀ c ∈ p, c.isDigit = false) :
    ((if p.isPrefixOf acc then acc.drop p.length else acc).filter Char.isDigit)
      = acc.filter Char.isDigit := by
  split
  · next h =>
    obtain ⟨t, rfl⟩ := List.isPrefixOf_iff_prefix.mp h
    have h0 : p.filter Char.isDigit = [] := by
      rw [List.filter_eq_nil_iff]; intro a ha; simp [hp a ha]
    rw [List.drop_left, List.filter_append, h0, List.nil_append]
  · rfl

lemma filter_isDigit_foldl_strip (ps : List (List Char)) (l : List Char)
    (hps : ∀ p ∈ ps, ∀ c ∈ p, c.isDigit = false) :
    ((ps.foldl (fun acc p => if p.isPrefixOf acc then acc.drop p.length else acc) l).filter
      Char.isDigit) = l.filter Char.isDigit := by
  induction ps generalizing l with
  | nil => rfl
  | cons p ps ih =>
    rw [List.foldl_cons, ih _ (fun q hq => hps q (List.mem_cons_of_mem _ hq)),
      filter_isDigit_stripOne _ _ (hps p (List.mem_cons_self _ _))]

lemma filter_isDigit_stripSchemes (l : List Char) :
    (stripSchemes l).filter Char.isDigit = l.filter Char.isDigit :=
  filter_isDigit_foldl_strip PHONE_SCHEMES l (by decide)

/-! ### Evaluating the pipeline on an already-canonical `'+' :: digits` string -/

lemma dropWhile_eq_self_of_all (p : Char → Bool) (l : List Char)
    (h : ∀ x ∈ l, p x = false) : l.dropWhile p = l := by
  cases l with
  | nil => rfl
  | cons a t => rw [List.dropWhile_cons, h a (List.mem_cons_self _ _)]; simp

lemma pyStrip_plus_digits (d : List Char) (hd : ∀ c ∈ d, c.isDigit = true) :
    pyStrip ('+' :: d) = '+' :: d := by
  have hnw : ∀ x ∈ '+' :: d, x.isWhitespace = false := by
    intro x hx
    rcases List.mem_cons.mp hx with rfl | hx
    · decide
    · exact isDigit_not_isWhitespace (hd _ hx)
  unfold pyStrip
  rw [dropWhile_eq_self_of_all _ _ hnw,
    dropWhile_eq_self_of_all _ _ (fun x hx => hnw x (List.mem_reverse.mp hx)),
    List.reverse_reverse]

lemma stripSchemes_plus (d : List Char) : stripSchemes ('+' :: d) = '+' :: d := by
  simp [stripSchemes, PHONE_SCHEMES, String.toList, List.isPrefixOf]

lemma filter_isDigit_plus (d : List Char) (hd : ∀ c ∈ d, c.isDigit = true) :
    ('+' :: d).filter Char.isDigit = d := by
  rw [List.filter_cons]
  simp [List.filter_eq_self.mpr hd]

/-! ### Case analysis of `canonize_phone`'s result -/

lemma phoneFromDigits_cases (digits : List Char) (hall : ∀ c ∈ digits, c.isDigit = true) :
    (phoneFromDigits digits = [] ∧ digits = []) ∨
    ∃ d, phoneFromDigits digits = '+' :: d ∧ d ≠ [] ∧ (∀ c ∈ d, c.isDigit = true) ∧
      ((d.length = 11 ∧ d.head? = some '1') ∨
        (d.length ≠ 10 ∧ ¬(d.length = 11 ∧ d.head? = some '1'))) := by
  unfold phoneFromDigits
  by_cases h0 : digits = []
  · left; rw [if_pos h0]; exact ⟨rfl, h0⟩
  · right
    by_cases h1 : digits.length = 11 ∧ digits.head? = some '1'
    · exact ⟨digits, by rw [if_neg h0, if_pos h1], h0, hall, Or.inl h1⟩
    · by_cases h2 : digits.length = 10
      · refine ⟨'1' :: digits, by rw [if_neg h0, if_neg h1, if_pos h2], by simp, ?_,
          Or.inl ⟨by simp [h2], rfl⟩⟩
        intro c hc
        rcases List.mem_cons.mp hc with rfl | hc
        · decide
        · exact hall _ hc
      · exact ⟨digits, by rw [if_neg h0, if_neg h1, if_neg h2], h0, hall, Or.inr ⟨h2, h1⟩⟩

lemma canonizePhoneChars_cases (l : List Char) :
    (canonizePhoneChars l = [] ∧ l.filter Char.isDigit = []) ∨
    ∃ d, canonizePhoneChars l = '+' :: d ∧ d ≠ [] ∧ (∀ c ∈ d, c.isDigit = true) ∧
      ((d.length = 11 ∧ d.head? = some '1') ∨
        (d.length ≠ 10 ∧ ¬(d.length = 11 ∧ d.head? = some '1'))) := by
  have hfil : (stripSchemes (pyStrip l)).filter Char.isDigit = l.filter Char.isDigit := by
    rw [filter_isDigit_stripSchemes, filter_isDigit_pyStrip]
  have hall : ∀ c ∈ (stripSchemes (pyStrip l)).filter Char.isDigit, c.isDigit = true :=
    fun c hc => List.of_mem_filter hc
  unfold canonizePhoneChars
  rcases phoneFromDigits_cases _ hall with ⟨h, hnil⟩ | h
  · exact Or.inl ⟨h, hfil ▸ hnil⟩
  · exact Or.inr h

lemma canonizePhoneChars_idem (l : List Char) :
    canonizePhoneChars (canonizePhoneChars l) = canonizePhoneChars l := by
  rcases canonizePhoneChars_cases l with ⟨h, _⟩ | ⟨d, hres, hne, hdig, hbr⟩
  · rw [h]; rfl
  · rw [hres]
    unfold canonizePhoneChars
    rw [pyStrip_plus_digits d hdig, stripSchemes_plus, filter_isDigit_plus d hdig]
    unfold phoneFromDigits
    rcases hbr with h11 | ⟨h10, hnot⟩
    · rw [if_neg hne, if_pos h11]
    · rw [if_neg hne, if_neg hnot, if_neg h10]

/-- **C10.** `canonize_phone` is idempotent, and its result is either the empty
string (in particular whenever the input contains no digit) or a `'+'`-prefixed
non-empty digit string (helpers.py, lines 85-97). -/
theorem canonize_phone_idempotent_and_shape (s : String) :
    canonize_phone (canonize_phone s) = canonize_phone s ∧
    ((canonize_phone s = "" ∧ ∀ c ∈ s.toList, c.isDigit = false) ∨
      (∃ d : List Char, d ≠ [] ∧ (∀ c ∈ d, c.isDigit = true) ∧
        canonize_phone s = String.mk ('+' :: d))) := by
  constructor
  · exact congrArg String.mk (canonizePhoneChars_idem s.toList)
  · rcases canonizePhoneChars_cases s.toList with ⟨h, hnil⟩ | ⟨d, hres, hne, hdig, _⟩
    · left
      constructor
      · unfold canonize_phone
        rw [h]
      · intro c hc
        rw [List.filter_eq_nil_iff] at hnil
        simpa using hnil c hc
    · right
      exact ⟨d, hne, hdig, congrArg String.mk hres⟩

/-! ## μ-law codec (voice_webrtc_bridge.py, lines 51-82)

`_ulaw_to_linear` decodes μ-law bytes to PCM16 samples, `_linear_to_ulaw`
encodes them back.  Bytes are modelled as `Nat` (< 256), samples as `Int`.
numpy's `~u` on `uint8` is `255 - u`; `(~y) & 0xFF` on a non-negative
`int32` is `255 - y % 256`. -/

/-- Decode a single μ-law byte (`_ulaw_to_linear` applied to one element). -/
def ulawByteToLinear (b : Nat) : Int :=
  let u := 255 - b % 256
  let sign := u.land 0x80 ≠ 0
  let exponent := (u >>> 4).land 0x07
  let mantissa := u.land 0x0F
  let magnitude := ((mantissa <<< 3) + 0x84) <<< exponent
  let x : Int := (magnitude : Int) - 0x84
  let pcm := if sign then -x else x
  max (-32768) (min 32767 pcm)

/-- The inner `_msb_index` helper of `_linear_to_ulaw`: position of the most
significant set bit, computed by the shift cascade over `[8, 4, 2, 1]`. -/
def msb_index (v : Nat) : Nat :=
  (([8, 4, 2, 1] : List Nat).foldl
    (fun p shift => if (1 <<< shift) ≤ p.2 then (p.1 + shift, p.2 >>> shift) else p)
    ((0, v) : Nat × Nat)).1

/-- Encode a single PCM16 sample (`_linear_to_ulaw` applied to one element). -/
def linearSampleToUlaw (s : Int) : Nat :=
  let sign : Nat := if s < 0 then 128 else 0
  let x := min (s.natAbs + 0x84) 0x7FFF
  let exp := msb_index (x >>> 7)
  let mant := (x >>> (exp + 3)).land 0x0F
  255 - ((sign + (exp <<< 4) + mant) % 256)

/-- `_ulaw_to_linear` on a whole byte string. -/
def ulaw_to_linear (bs : List Nat) : List Int := bs.map ulawByteToLinear

/-- `_linear_to_ulaw` on a whole sample array. -/
def linear_to_ulaw (pcm : List Int) : List Nat := pcm.map linearSampleToUlaw

/-- **C4 (counterexample).** The μ-law round-trip is *not* the identity on the
byte `0x7F` ("negative zero"): it decodes to the sample `0`, which re-encodes
as `0xFF` ("positive zero"). -/
theorem ulaw_roundtrip_not_id_at_7F :
    linearSampleToUlaw (ulawByteToLinear 0x7F) ≠ 0x7F ∧
    ulawByteToLinear 0x7F = 0 ∧
    linearSampleToUlaw (ulawByteToLinear 0x7F) = 0xFF ∧
    linear_to_ulaw (ulaw_to_linear [0x7F]) ≠ [0x7F] := by decide

/-- **C4 (amended).** For every μ-law byte except `0x7F`, encoding the decoded
sample gives back the same byte; element-wise, the round-trip is the identity
on every μ-law byte string containing no `0x7F` byte. -/
theorem ulaw_roundtrip_id_away_from_7F :
    (∀ b < 256, b ≠ 0x7F → linearSampleToUlaw (ulawByteToLinear b) = b) ∧
    (∀ bs : List Nat, (∀ b ∈ bs, b < 256 ∧ b ≠ 0x7F) →
      linear_to_ulaw (ulaw_to_linear bs) = bs) := by
  have h : ∀ b < 256, b ≠ 0x7F → linearSampleToUlaw (ulawByteToLinear b) = b := by decide
  refine ⟨h, ?_⟩
  intro bs hbs
  unfold linear_to_ulaw ulaw_to_linear
  rw [List.map_map]
  induction bs with
  | nil => rfl
  | cons a t ih =>
    rw [List.map_cons]
    have ha := hbs a (List.mem_cons_self _ _)
    rw [ih (fun b hb => hbs b (List.mem_cons_of_mem _ hb))]
    rw [Function.comp_apply, h a ha.1 ha.2]

/-- Witness for `ulaw_roundtrip_id_away_from_7F` at the byte `0x23` and the
byte string `[0x00, 0x80, 0xFF]`. -/
theorem ulaw_roundtrip_id_away_from_7F_witness :
    linearSampleToUlaw (ulawByteToLinear 0x23) = 0x23 ∧
    linear_to_ulaw (ulaw_to_linear [0x00, 0x80, 0xFF]) = [0x00, 0x80, 0xFF] :=
  ⟨ulaw_roundtrip_id_away_from_7F.1 0x23 (by decide) (by decide),
    ulaw_roundtrip_id_away_from_7F.2 [0x00, 0x80, 0xFF] (by decide)⟩

/-! ## Linear resampler (voice_webrtc_bridge.py, `_resample_linear`, lines 84-93)

Samples are `Int`, sample rates `Nat`, real arithmetic is modelled over `ℚ`.
Python's `round` and `np.round` round halves to even.  When
`sr_src ≠ sr_dst` and `sr_src = 0`, the line `sr_dst / float(sr_src)`
raises `ZeroDivisionError`; the embedding returns `none` there. -/

/-- Round half to even — the semantics of Python's `round` and of `np.round`. -/
def roundHalfEven (q : ℚ) : ℤ :=
  if q - ⌊q⌋ < 1/2 then ⌊q⌋
  else if 1/2 < q - ⌊q⌋ then ⌊q⌋ + 1
  else if ⌊q⌋ % 2 = 0 then ⌊q⌋ else ⌊q⌋ + 1

/-- `np.linspace a b num`: `num` evenly spaced points from `a` to `b` inclusive. -/
def linspace (a b : ℚ) (num : Nat) : List ℚ :=
  if num = 0 then []
  else if num = 1 then [a]
  else (List.range num).map (fun i : ℕ => a + (b - a) * (i : ℚ) / ((num : ℚ) - 1))

/-- `np.interp` at one query point over the nodes `0, …, pcm.length - 1`
carrying the values `pcm` (queries outside the range are clamped). -/
def interpAt (pcm : List ℤ) (t : ℚ) : ℚ :=
  if t ≤ 0 then ((pcm.getD 0 0 : ℤ) : ℚ)
  else if ((pcm.length : ℚ) - 1) ≤ t then ((pcm.getD (pcm.length - 1) 0 : ℤ) : ℚ)
  else
    ((pcm.getD ⌊t⌋.toNat 0 : ℤ) : ℚ) +
      (t - (⌊t⌋.toNat : ℚ)) *
        (((pcm.getD (⌊t⌋.toNat + 1) 0 : ℤ) : ℚ) - ((pcm.getD ⌊t⌋.toNat 0 : ℤ) : ℚ))

/-- `np.clip(np.round q, -32768, 32767)` producing an `int16` value. -/
def clipRoundInt16 (q : ℚ) : ℤ :=
  max (-32768) (min 32767 (roundHalfEven q))

/-- `_resample_linear` (voice_webrtc_bridge.py, lines 84-93). -/
def resample_linear (pcm : List ℤ) (sr_src sr_dst : Nat) : Option (List ℤ) :=
  if sr_src = sr_dst ∨ pcm.length = 0 then some pcm
  else if sr_src = 0 then none
  else
    let ratio : ℚ := (sr_dst : ℚ) / (sr_src : ℚ)
    let n_dst := (roundHalfEven ((pcm.length : ℚ) * ratio)).toNat
    some ((linspace 0 ((pcm.length : ℚ) - 1) n_dst).map (fun t => clipRoundInt16 (interpAt pcm t)))

lemma linspace_length (a b : ℚ) (num : Nat) : (linspace a b num).length = num := by
  unfold linspace
  split
  · next h => simp [h]
  · split
    · next _ h => simp [h]
    · rw [List.length_map, List.length_range]

lemma clipRoundInt16_mem_Icc (q : ℚ) : -32768 ≤ clipRoundInt16 q ∧ clipRoundInt16 q ≤ 32767 := by
  unfold clipRoundInt16
  constructor
  · exact le_max_left _ _
  · exact max_le (by norm_num) (min_le_left _ _)

/-- **C5.** `_resample_linear` is the identity when source and destination
rates agree (for any rate, any sample list); and for a non-empty list and
distinct (meaningful, i.e. non-zero source) rates it produces exactly
`round(pcm.size * sr_dst / sr_src)` samples, each within the `int16` range
`[-32768, 32767]`. -/
theorem resample_linear_spec :
    (∀ (pcm : List ℤ) (sr : Nat), resample_linear pcm sr sr = some pcm) ∧
    (∀ (pcm : List ℤ) (sr_src sr_dst : Nat), pcm ≠ [] → sr_src ≠ sr_dst → 0 < sr_src →
      ∃ out, resample_linear pcm sr_src sr_dst = some out ∧
        out.length = (roundHalfEven ((pcm.length : ℚ) * sr_dst / sr_src)).toNat ∧
        ∀ x ∈ out, -32768 ≤ x ∧ x ≤ 32767) := by
  constructor
  · intro pcm sr
    unfold resample_linear
    rw [if_pos (Or.inl rfl)]
  · intro pcm sr_src sr_dst hne hsr hpos
    unfold resample_linear
    rw [if_neg, if_neg (Nat.pos_iff_ne_zero.mp hpos)]
    · refine ⟨_, rfl, ?_, ?_⟩
      · rw [List.length_map, linspace_length, mul_div_assoc]
      · intro x hx
        obtain ⟨t, _, rfl⟩ := List.mem_map.mp hx
        exact clipRoundInt16_mem_Icc _
    · rintro (h | h)
      · exact hsr h
      · exact hne (List.length_eq_zero.mp h)

/-- Witness for `resample_linear_spec` at `pcm = [0, 1000]`, 8000 Hz → 16000 Hz. -/
theorem resample_linear_spec_witness :
    ∃ out, resample_linear [0, 1000] 8000 16000 = some out ∧
      out.length = (roundHalfEven (((2 : Nat) : ℚ) * 16000 / 8000)).toNat ∧
      ∀ x ∈ out, -32768 ≤ x ∧ x ≤ 32767 :=
  resample_linear_spec.2 [0, 1000] 8000 16000 (by decide) (by decide) (by decide)

/-! ## Intent keyword matching (helpers.py, lines 100-106)

`SCHEDULE_OFFER_PAT` is the regex
`\b(enlace|link|calendar|calendario|agendar|agenda|reservar|reserva|cita|schedule|book|appointment|meeting|call)\b`
with `re.IGNORECASE`, and `wants_link(text)` is
`bool(SCHEDULE_OFFER_PAT.search(text or ""))`.  The embedding models `\w`
and case folding at ASCII granularity (`[A-Za-z0-9_]`, ASCII lowercasing);
`None` input is modelled as `Option.none`. -/

/-- The code-point ranges of Python `re`'s Unicode `\w` word-character
class (alphanumeric or underscore, over the whole Unicode range),
compressed into closed intervals. -/
def wordCharRanges : List (UInt32 × UInt32) :=
  [(0x30, 0x39), (0x41, 0x5A), (0x5F, 0x5F), (0x61, 0x7A), (0xAA, 0xAA), (0xB2, 0xB3),
   (0xB5, 0xB5), (0xB9, 0xBA), (0xBC, 0xBE), (0xC0, 0xD6), (0xD8, 0xF6), (0xF8, 0x2C1),
   (0x2C6, 0x2D1), (0x2E0, 0x2E4), (0x2EC, 0x2EC), (0x2EE, 0x2EE), (0x370, 0x374),
   (0x376, 0x377), (0x37A, 0x37D), (0x37F, 0x37F), (0x386, 0x386), (0x388, 0x38A),
   (0x38C, 0x38C), (0x38E, 0x3A1), (0x3A3, 0x3F5), (0x3F7, 0x481), (0x48A, 0x52F),
   (0x531, 0x556), (0x559, 0x559), (0x560, 0x588), (0x5D0, 0x5EA), (0x5EF, 0x5F2),
   (0x620, 0x64A), (0x660, 0x669), (0x66E, 0x66F), (0x671, 0x6D3), (0x6D5, 0x6D5),
   (0x6E5, 0x6E6), (0x6EE, 0x6FC), (0x6FF, 0x6FF), (0x710, 0x710), (0x712, 0x72F),
   (0x74D, 0x7A5), (0x7B1, 0x7B1), (0x7C0, 0x7EA), (0x7F4, 0x7F5), (0x7FA, 0x7FA),
   (0x800, 0x815), (0x81A, 0x81A), (0x824, 0x824), (0x828, 0x828), (0x840, 0x858),
   (0x860, 0x86A), (0x870, 0x887), (0x889, 0x88E), (0x8A0, 0x8C9), (0x904, 0x939),
   (0x93D, 0x93D), (0x950, 0x950), (0x958, 0x961), (0x966, 0x96F), (0x971, 0x980),
   (0x985, 0x98C), (0x98F, 0x990), (0x993, 0x9A8), (0x9AA, 0x9B0), (0x9B2, 0x9B2),
   (0x9B6, 0x9B9), (0x9BD, 0x9BD), (0x9CE, 0x9CE), (0x9DC, 0x9DD), (0x9DF, 0x9E1),
   (0x9E6, 0x9F1), (0x9F4, 0x9F9), (0x9FC, 0x9FC), (0xA05, 0xA0A), (0xA0F, 0xA10),
   (0xA13, 0xA28), (0xA2A, 0xA30), (0xA32, 0xA33), (0xA35, 0xA36), (0xA38, 0xA39),
   (0xA59, 0xA5C), (0xA5E, 0xA5E), (0xA66, 0xA6F), (0xA72, 0xA74), (0xA85, 0xA8D),
   (0xA8F, 0xA91), (0xA93, 0xAA8), (0xAAA, 0xAB0), (0xAB2, 0xAB3), (0xAB5, 0xAB9),
   (0xABD, 0xABD), (0xAD0, 0xAD0), (0xAE0, 0xAE1), (0xAE6, 0xAEF), (0xAF9, 0xAF9),
   (0xB05, 0xB0C), (0xB0F, 0xB10), (0xB13, 0xB28), (0xB2A, 0xB30), (0xB32, 0xB33),
   (0xB35, 0xB39), (0xB3D, 0xB3D), (0xB5C, 0xB5D), (0xB5F, 0xB61), (0xB66, 0xB6F),
   (0xB71, 0xB77), (0xB83, 0xB83), (0xB85, 0xB8A), (0xB8E, 0xB90), (0xB92, 0xB95),
   (0xB99, 0xB9A), (0xB9C, 0xB9C), (0xB9E, 0xB9F), (0xBA3, 0xBA4), (0xBA8, 0xBAA),
   (0xBAE, 0xBB9), (0xBD0, 0xBD0), (0xBE6, 0xBF2), (0xC05, 0xC0C), (0xC0E, 0xC10),
   (0xC12, 0xC28), (0xC2A, 0xC39), (0xC3D, 0xC3D), (0xC58, 0xC5A), (0xC5D, 0xC5D),
   (0xC60, 0xC61), (0xC66, 0xC6F), (0xC78, 0xC7E), (0xC80, 0xC80), (0xC85, 0xC8C),
   (0xC8E, 0xC90), (0xC92, 0xCA8), (0xCAA, 0xCB3), (0xCB5, 0xCB9), (0xCBD, 0xCBD),
   (0xCDD, 0xCDE), (0xCE0, 0xCE1), (0xCE6, 0xCEF), (0xCF1, 0xCF2), (0xD04, 0xD0C),
   (0xD0E, 0xD10), (0xD12, 0xD3A), (0xD3D, 0xD3D), (0xD4E, 0xD4E), (0xD54, 0xD56),
   (0xD58, 0xD61), (0xD66, 0xD78), (0xD7A, 0xD7F), (0xD85, 0xD96), (0xD9A, 0xDB1),
   (0xDB3, 0xDBB), (0xDBD, 0xDBD), (0xDC0, 0xDC6), (0xDE6, 0xDEF), (0xE01, 0xE30),
   (0xE32, 0xE33), (0xE40, 0xE46), (0xE50, 0xE59), (0xE81, 0xE82), (0xE84, 0xE84),
   (0xE86, 0xE8A), (0xE8C, 0xEA3), (0xEA5, 0xEA5), (0xEA7, 0xEB0), (0xEB2, 0xEB3),
   (0xEBD, 0xEBD), (0xEC0, 0xEC4), (0xEC6, 0xEC6), (0xED0, 0xED9), (0xEDC, 0xEDF),
   (0xF00, 0xF00), (0xF20, 0xF33), (0xF40, 0xF47), (0xF49, 0xF6C), (0xF88, 0xF8C),
   (0x1000, 0x102A), (0x103F, 0x1049), (0x1050, 0x1055), (0x105A, 0x105D), (0x1061, 0x1061),
   (0x1065, 0x1066), (0x106E, 0x1070), (0x1075, 0x1081), (0x108E, 0x108E), (0x1090, 0x1099),
   (0x10A0, 0x10C5), (0x10C7, 0x10C7), (0x10CD, 0x10CD), (0x10D0, 0x10FA), (0x10FC, 0x1248),
   (0x124A, 0x124D), (0x1250, 0x1256), (0x1258, 0x1258), (0x125A, 0x125D), (0x1260, 0x1288),
   (0x128A, 0x128D), (0x1290, 0x12B0), (0x12B2, 0x12B5), (0x12B8, 0x12BE), (0x12C0, 0x12C0),
   (0x12C2, 0x12C5), (0x12C8, 0x12D6), (0x12D8, 0x1310), (0x1312, 0x1315), (0x1318, 0x135A),
   (0x1369, 0x137C), (0x1380, 0x138F), (0x13A0, 0x13F5), (0x13F8, 0x13FD), (0x1401, 0x166C),
   (0x166F, 0x167F), (0x1681, 0x169A), (0x16A0, 0x16EA), (0x16EE, 0x16F8), (0x1700, 0x1711),
   (0x171F, 0x1731), (0x1740, 0x1751), (0x1760, 0x176C), (0x176E, 0x1770), (0x1780, 0x17B3),
   (0x17D7, 0x17D7), (0x17DC, 0x17DC), (0x17E0, 0x17E9), (0x17F0, 0x17F9), (0x1810, 0x1819),
   (0x1820, 0x1878), (0x1880, 0x1884), (0x1887, 0x18A8), (0x18AA, 0x18AA), (0x18B0, 0x18F5),
   (0x1900, 0x191E), (0x1946, 0x196D), (0x1970, 0x1974), (0x1980, 0x19AB), (0x19B0, 0x19C9),
   (0x19D0, 0x19DA), (0x1A00, 0x1A16), (0x1A20, 0x1A54), (0x1A80, 0x1A89), (0x1A90, 0x1A99),
   (0x1AA7, 0x1AA7), (0x1B05, 0x1B33), (0x1B45, 0x1B4C), (0x1B50, 0x1B59), (0x1B83, 0x1BA0),
   (0x1BAE, 0x1BE5), (0x1C00, 0x1C23), (0x1C40, 0x1C49), (0x1C4D, 0x1C7D), (0x1C80, 0x1C88),
   (0x1C90, 0x1CBA), (0x1CBD, 0x1CBF), (0x1CE9, 0x1CEC), (0x1CEE, 0x1CF3), (0x1CF5, 0x1CF6),
   (0x1CFA, 0x1CFA), (0x1D00, 0x1DBF), (0x1E00, 0x1F15), (0x1F18, 0x1F1D), (0x1F20, 0x1F45),
   (0x1F48, 0x1F4D), (0x1F50, 0x1F57), (0x1F59, 0x1F59), (0x1F5B, 0x1F5B), (0x1F5D, 0x1F5D),
   (0x1F5F, 0x1F7D), (0x1F80, 0x1FB4), (0x1FB6, 0x1FBC), (0x1FBE, 0x1FBE), (0x1FC2, 0x1FC4),
   (0x1FC6, 0x1FCC), (0x1FD0, 0x1FD3), (0x1FD6, 0x1FDB), (0x1FE0, 0x1FEC), (0x1FF2, 0x1FF4),
   (0x1FF6, 0x1FFC), (0x2070, 0x2071), (0x2074, 0x2079), (0x207F, 0x2089), (0x2090, 0x209C),
   (0x2102, 0x2102), (0x2107, 0x2107), (0x210A, 0x2113), (0x2115, 0x2115), (0x2119, 0x211D),
   (0x2124, 0x2124), (0x2126, 0x2126), (0x2128, 0x2128), (0x212A, 0x212D), (0x212F, 0x2139),
   (0x213C, 0x213F), (0x2145, 0x2149), (0x214E, 0x214E), (0x2150, 0x2189), (0x2460, 0x249B),
   (0x24EA, 0x24FF), (0x2776, 0x2793), (0x2C00, 0x2CE4), (0x2CEB, 0x2CEE), (0x2CF2, 0x2CF3),
   (0x2CFD, 0x2CFD), (0x2D00, 0x2D25), (0x2D27, 0x2D27), (0x2D2D, 0x2D2D), (0x2D30, 0x2D67),
   (0x2D6F, 0x2D6F), (0x2D80, 0x2D96), (0x2DA0, 0x2DA6), (0x2DA8, 0x2DAE), (0x2DB0, 0x2DB6),
   (0x2DB8, 0x2DBE), (0x2DC0, 0x2DC6), (0x2DC8, 0x2DCE), (0x2DD0, 0x2DD6), (0x2DD8, 0x2DDE),
   (0x2E2F, 0x2E2F), (0x3005, 0x3007), (0x3021, 0x3029), (0x3031, 0x3035), (0x3038, 0x303C),
   (0x3041, 0x3096), (0x309D, 0x309F), (0x30A1, 0x30FA), (0x30FC, 0x30FF), (0x3105, 0x312F),
   (0x3131, 0x318E), (0x3192, 0x3195), (0x31A0, 0x31BF), (0x31F0, 0x31FF), (0x3220, 0x3229),
   (0x3248, 0x324F), (0x3251, 0x325F), (0x3280, 0x3289), (0x32B1, 0x32BF), (0x3400, 0x4DBF),
   (0x4E00, 0xA48C), (0xA4D0, 0xA4FD), (0xA500, 0xA60C), (0xA610, 0xA62B), (0xA640, 0xA66E),
   (0xA67F, 0xA69D), (0xA6A0, 0xA6EF), (0xA717, 0xA71F), (0xA722, 0xA788), (0xA78B, 0xA7CA),
   (0xA7D0, 0xA7D1), (0xA7D3, 0xA7D3), (0xA7D5, 0xA7D9), (0xA7F2, 0xA801), (0xA803, 0xA805),
   (0xA807, 0xA80A), (0xA80C, 0xA822), (0xA830, 0xA835), (0xA840, 0xA873), (0xA882, 0xA8B3),
   (0xA8D0, 0xA8D9), (0xA8F2, 0xA8F7), (0xA8FB, 0xA8FB), (0xA8FD, 0xA8FE), (0xA900, 0xA925),
   (0xA930, 0xA946), (0xA960, 0xA97C), (0xA984, 0xA9B2), (0xA9CF, 0xA9D9), (0xA9E0, 0xA9E4),
   (0xA9E6, 0xA9FE), (0xAA00, 0xAA28), (0xAA40, 0xAA42), (0xAA44, 0xAA4B), (0xAA50, 0xAA59),
   (0xAA60, 0xAA76), (0xAA7A, 0xAA7A), (0xAA7E, 0xAAAF), (0xAAB1, 0xAAB1), (0xAAB5, 0xAAB6),
   (0xAAB9, 0xAABD), (0xAAC0, 0xAAC0), (0xAAC2, 0xAAC2), (0xAADB, 0xAADD), (0xAAE0, 0xAAEA),
   (0xAAF2, 0xAAF4), (0xAB01, 0xAB06), (0xAB09, 0xAB0E), (0xAB11, 0xAB16), (0xAB20, 0xAB26),
   (0xAB28, 0xAB2E), (0xAB30, 0xAB5A), (0xAB5C, 0xAB69), (0xAB70, 0xABE2), (0xABF0, 0xABF9),
   (0xAC00, 0xD7A3), (0xD7B0, 0xD7C6), (0xD7CB, 0xD7FB), (0xF900, 0xFA6D), (0xFA70, 0xFAD9),
   (0xFB00, 0xFB06), (0xFB13, 0xFB17), (0xFB1D, 0xFB1D), (0xFB1F, 0xFB28), (0xFB2A, 0xFB36),
   (0xFB38, 0xFB3C), (0xFB3E, 0xFB3E), (0xFB40, 0xFB41), (0xFB43, 0xFB44), (0xFB46, 0xFBB1),
   (0xFBD3, 0xFD3D), (0xFD50, 0xFD8F), (0xFD92, 0xFDC7), (0xFDF0, 0xFDFB), (0xFE70, 0xFE74),
   (0xFE76, 0xFEFC), (0xFF10, 0xFF19), (0xFF21, 0xFF3A), (0xFF41, 0xFF5A), (0xFF66, 0xFFBE),
   (0xFFC2, 0xFFC7), (0xFFCA, 0xFFCF), (0xFFD2, 0xFFD7), (0xFFDA, 0xFFDC), (0x10000, 0x1000B),
   (0x1000D, 0x10026), (0x10028, 0x1003A), (0x1003C, 0x1003D), (0x1003F, 0x1004D),
   (0x10050, 0x1005D), (0x10080, 0x100FA), (0x10107, 0x10133), (0x10140, 0x10178),
   (0x1018A, 0x1018B), (0x10280, 0x1029C), (0x102A0, 0x102D0), (0x102E1, 0x102FB),
   (0x10300, 0x10323), (0x1032D, 0x1034A), (0x10350, 0x10375), (0x10380, 0x1039D),
   (0x103A0, 0x103C3), (0x103C8, 0x103CF), (0x103D1, 0x103D5), (0x10400, 0x1049D),
   (0x104A0, 0x104A9), (0x104B0, 0x104D3), (0x104D8, 0x104FB), (0x10500, 0x10527),
   (0x10530, 0x10563), (0x10570, 0x1057A), (0x1057C, 0x1058A), (0x1058C, 0x10592),
   (0x10594, 0x10595), (0x10597, 0x105A1), (0x105A3, 0x105B1), (0x105B3, 0x105B9),
   (0x105BB, 0x105BC), (0x10600, 0x10736), (0x10740, 0x10755), (0x10760, 0x10767),
   (0x10780, 0x10785), (0x10787, 0x107B0), (0x107B2, 0x107BA), (0x10800, 0x10805),
   (0x10808, 0x10808), (0x1080A, 0x10835), (0x10837, 0x10838), (0x1083C, 0x1083C),
   (0x1083F, 0x10855), (0x10858, 0x10876), (0x10879, 0x1089E), (0x108A7, 0x108AF),
   (0x108E0, 0x108F2), (0x108F4, 0x108F5), (0x108FB, 0x1091B), (0x10920, 0x10939),
   (0x10980, 0x109B7), (0x109BC, 0x109CF), (0x109D2, 0x10A00), (0x10A10, 0x10A13),
   (0x10A15, 0x10A17), (0x10A19, 0x10A35), (0x10A40, 0x10A48), (0x10A60, 0x10A7E),
   (0x10A80, 0x10A9F), (0x10AC0, 0x10AC7), (0x10AC9, 0x10AE4), (0x10AEB, 0x10AEF),
   (0x10B00, 0x10B35), (0x10B40, 0x10B55), (0x10B58, 0x10B72), (0x10B78, 0x10B91),
   (0x10BA9, 0x10BAF), (0x10C00, 0x10C48), (0x10C80, 0x10CB2), (0x10CC0, 0x10CF2),
   (0x10CFA, 0x10D23), (0x10D30, 0x10D39), (0x10E60, 0x10E7E), (0x10E80, 0x10EA9),
   (0x10EB0, 0x10EB1), (0x10F00, 0x10F27), (0x10F30, 0x10F45), (0x10F51, 0x10F54),
   (0x10F70, 0x10F81), (0x10FB0, 0x10FCB), (0x10FE0, 0x10FF6), (0x11003, 0x11037),
   (0x11052, 0x1106F), (0x11071, 0x11072), (0x11075, 0x11075), (0x11083, 0x110AF),
   (0x110D0, 0x110E8), (0x110F0, 0x110F9), (0x11103, 0x11126), (0x11136, 0x1113F),
   (0x11144, 0x11144), (0x11147, 0x11147), (0x11150, 0x11172), (0x11176, 0x11176),
   (0x11183, 0x111B2), (0x111C1, 0x111C4), (0x111D0, 0x111DA), (0x111DC, 0x111DC),
   (0x111E1, 0x111F4), (0x11200, 0x11211), (0x11213, 0x1122B), (0x11280, 0x11286),
   (0x11288, 0x11288), (0x1128A, 0x1128D), (0x1128F, 0x1129D), (0x1129F, 0x112A8),
   (0x112B0, 0x112DE), (0x112F0, 0x112F9), (0x11305, 0x1130C), (0x1130F, 0x11310),
   (0x11313, 0x11328), (0x1132A, 0x11330), (0x11332, 0x11333), (0x11335, 0x11339),
   (0x1133D, 0x1133D), (0x11350, 0x11350), (0x1135D, 0x11361), (0x11400, 0x11434),
   (0x11447, 0x1144A), (0x11450, 0x11459), (0x1145F, 0x11461), (0x11480, 0x114AF),
   (0x114C4, 0x114C5), (0x114C7, 0x114C7), (0x114D0, 0x114D9), (0x11580, 0x115AE),
   (0x115D8, 0x115DB), (0x11600, 0x1162F), (0x11644, 0x11644), (0x11650, 0x11659),
   (0x11680, 0x116AA), (0x116B8, 0x116B8), (0x116C0, 0x116C9), (0x11700, 0x1171A),
   (0x11730, 0x1173B), (0x11740, 0x11746), (0x11800, 0x1182B), (0x118A0, 0x118F2),
   (0x118FF, 0x11906), (0x11909, 0x11909), (0x1190C, 0x11913), (0x11915, 0x11916),
   (0x11918, 0x1192F), (0x1193F, 0x1193F), (0x11941, 0x11941), (0x11950, 0x11959),
   (0x119A0, 0x119A7), (0x119AA, 0x119D0), (0x119E1, 0x119E1), (0x119E3, 0x119E3),
   (0x11A00, 0x11A00), (0x11A0B, 0x11A32), (0x11A3A, 0x11A3A), (0x11A50, 0x11A50),
   (0x11A5C, 0x11A89), (0x11A9D, 0x11A9D), (0x11AB0, 0x11AF8), (0x11C00, 0x11C08),
   (0x11C0A, 0x11C2E), (0x11C40, 0x11C40), (0x11C50, 0x11C6C), (0x11C72, 0x11C8F),
   (0x11D00, 0x11D06), (0x11D08, 0x11D09), (0x11D0B, 0x11D30), (0x11D46, 0x11D46),
   (0x11D50, 0x11D59), (0x11D60, 0x11D65), (0x11D67, 0x11D68), (0x11D6A, 0x11D89),
   (0x11D98, 0x11D98), (0x11DA0, 0x11DA9), (0x11EE0, 0x11EF2), (0x11FB0, 0x11FB0),
   (0x11FC0, 0x11FD4), (0x12000, 0x12399), (0x12400, 0x1246E), (0x12480, 0x12543),
   (0x12F90, 0x12FF0), (0x13000, 0x1342E), (0x14400, 0x14646), (0x16800, 0x16A38),
   (0x16A40, 0x16A5E), (0x16A60, 0x16A69), (0x16A70, 0x16ABE), (0x16AC0, 0x16AC9),
   (0x16AD0, 0x16AED), (0x16B00, 0x16B2F), (0x16B40, 0x16B43), (0x16B50, 0x16B59),
   (0x16B5B, 0x16B61), (0x16B63, 0x16B77), (0x16B7D, 0x16B8F), (0x16E40, 0x16E96),
   (0x16F00, 0x16F4A), (0x16F50, 0x16F50), (0x16F93, 0x16F9F), (0x16FE0, 0x16FE1),
   (0x16FE3, 0x16FE3), (0x17000, 0x187F7), (0x18800, 0x18CD5), (0x18D00, 0x18D08),
   (0x1AFF0, 0x1AFF3), (0x1AFF5, 0x1AFFB), (0x1AFFD, 0x1AFFE), (0x1B000, 0x1B122),
   (0x1B150, 0x1B152), (0x1B164, 0x1B167), (0x1B170, 0x1B2FB), (0x1BC00, 0x1BC6A),
   (0x1BC70, 0x1BC7C), (0x1BC80, 0x1BC88), (0x1BC90, 0x1BC99), (0x1D2E0, 0x1D2F3),
   (0x1D360, 0x1D378), (0x1D400, 0x1D454), (0x1D456, 0x1D49C), (0x1D49E, 0x1D49F),
   (0x1D4A2, 0x1D4A2), (0x1D4A5, 0x1D4A6), (0x1D4A9, 0x1D4AC), (0x1D4AE, 0x1D4B9),
   (0x1D4BB, 0x1D4BB), (0x1D4BD, 0x1D4C3), (0x1D4C5, 0x1D505), (0x1D507, 0x1D50A),
   (0x1D50D, 0x1D514), (0x1D516, 0x1D51C), (0x1D51E, 0x1D539), (0x1D53B, 0x1D53E),
   (0x1D540, 0x1D544), (0x1D546, 0x1D546), (0x1D54A, 0x1D550), (0x1D552, 0x1D6A5),
   (0x1D6A8, 0x1D6C0), (0x1D6C2, 0x1D6DA), (0x1D6DC, 0x1D6FA), (0x1D6FC, 0x1D714),
   (0x1D716, 0x1D734), (0x1D736, 0x1D74E), (0x1D750, 0x1D76E), (0x1D770, 0x1D788),
   (0x1D78A, 0x1D7A8), (0x1D7AA, 0x1D7C2), (0x1D7C4, 0x1D7CB), (0x1D7CE, 0x1D7FF),
   (0x1DF00, 0x1DF1E), (0x1E100, 0x1E12C), (0x1E137, 0x1E13D), (0x1E140, 0x1E149),
   (0x1E14E, 0x1E14E), (0x1E290, 0x1E2AD), (0x1E2C0, 0x1E2EB), (0x1E2F0, 0x1E2F9),
   (0x1E7E0, 0x1E7E6), (0x1E7E8, 0x1E7EB), (0x1E7ED, 0x1E7EE), (0x1E7F0, 0x1E7FE),
   (0x1E800, 0x1E8C4), (0x1E8C7, 0x1E8CF), (0x1E900, 0x1E943), (0x1E94B, 0x1E94B),
   (0x1E950, 0x1E959), (0x1EC71, 0x1ECAB), (0x1ECAD, 0x1ECAF), (0x1ECB1, 0x1ECB4),
   (0x1ED01, 0x1ED2D), (0x1ED2F, 0x1ED3D), (0x1EE00, 0x1EE03), (0x1EE05, 0x1EE1F),
   (0x1EE21, 0x1EE22), (0x1EE24, 0x1EE24), (0x1EE27, 0x1EE27), (0x1EE29, 0x1EE32),
   (0x1EE34, 0x1EE37), (0x1EE39, 0x1EE39), (0x1EE3B, 0x1EE3B), (0x1EE42, 0x1EE42),
   (0x1EE47, 0x1EE47), (0x1EE49, 0x1EE49), (0x1EE4B, 0x1EE4B), (0x1EE4D, 0x1EE4F),
   (0x1EE51, 0x1EE52), (0x1EE54, 0x1EE54), (0x1EE57, 0x1EE57), (0x1EE59, 0x1EE59),
   (0x1EE5B, 0x1EE5B), (0x1EE5D, 0x1EE5D), (0x1EE5F, 0x1EE5F), (0x1EE61, 0x1EE62),
   (0x1EE64, 0x1EE64), (0x1EE67, 0x1EE6A), (0x1EE6C, 0x1EE72), (0x1EE74, 0x1EE77),
   (0x1EE79, 0x1EE7C), (0x1EE7E, 0x1EE7E), (0x1EE80, 0x1EE89), (0x1EE8B, 0x1EE9B),
   (0x1EEA1, 0x1EEA3), (0x1EEA5, 0x1EEA9), (0x1EEAB, 0x1EEBB), (0x1F100, 0x1F10C),
   (0x1FBF0, 0x1FBF9), (0x20000, 0x2A6DF), (0x2A700, 0x2B738), (0x2B740, 0x2B81D),
   (0x2B820, 0x2CEA1), (0x2CEB0, 0x2EBE0), (0x2F800, 0x2FA1D), (0x30000, 0x3134A)]

/-- Python `re`'s Unicode `\w` (word character), via the exact range table. -/
def isWordChar (c : Char) : Bool :=
  wordCharRanges.any (fun r => r.1 ≤ c.val && c.val ≤ r.2)

/-- For each letter of the schedule keywords, every character that matches
it under `re.IGNORECASE` (Unicode case folding, including CPython sre's
dotted/dotless `I`, Kelvin-sign and long-s equivalences). -/
def kwCharEquivs : List (Char × List Char) :=
  [('a', ['A', 'a']),
   ('b', ['B', 'b']),
   ('c', ['C', 'c']),
   ('d', ['D', 'd']),
   ('e', ['E', 'e']),
   ('g', ['G', 'g']),
   ('h', ['H', 'h']),
   ('i', ['I', 'i', '\u0130', '\u0131']),
   ('k', ['K', 'k', '\u212A']),
   ('l', ['L', 'l']),
   ('m', ['M', 'm']),
   ('n', ['N', 'n']),
   ('o', ['O', 'o']),
   ('p', ['P', 'p']),
   ('r', ['R', 'r']),
   ('s', ['S', 's', '\u017F']),
   ('t', ['T', 't']),
   ('u', ['U', 'u']),
   ('v', ['V', 'v'])]

/-- Does text character `c` match keyword letter `k` case-insensitively,
in the `re.IGNORECASE` sense? -/
def matchesKwChar (k c : Char) : Bool :=
  ((kwCharEquivs.lookup k).getD [k]).contains c

/-- The alternatives of `SCHEDULE_OFFER_PAT`, in source order. -/
def SCHEDULE_WORDS : List (List Char) :=
  ["enlace", "link", "calendar", "calendario", "agendar", "agenda", "reservar",
    "reserva", "cita", "schedule", "book", "appointment", "meeting", "call"].map String.toList

/-- Case-insensitive match of the (lowercase) keyword `kw` against the front
of `cs`; on success returns the remaining characters. -/
def matchKw : List Char → List Char → Option (List Char)
  | [], cs => some cs
  | _ :: _, [] => none
  | k :: ks, c :: cs => if matchesKwChar k c then matchKw ks cs else none

/-- The right-hand `\b`: the remaining text is empty or starts with a
non-word character. -/
def boundaryAfter (rest : List Char) : Bool :=
  match rest.head? with
  | none => true
  | some c => !(isWordChar c)

/-- Does some alternative of the pattern match at the current position, with
`\b` satisfied on both sides?  `prevOk` records that the preceding character
(if any) is a non-word character. -/
def kwHitAt (prevOk : Bool) (cs : List Char) : Bool :=
  prevOk && SCHEDULE_WORDS.any (fun kw => ((matchKw kw cs).map boundaryAfter).getD false)

/-- `re.search` over the whole string: try the pattern at every position. -/
def scanSchedule : Bool → List Char → Bool
  | prevOk, [] => kwHitAt prevOk []
  | prevOk, c :: cs => kwHitAt prevOk (c :: cs) || scanSchedule (!(isWordChar c)) cs

/-- `helpers.wants_link`; `none` models Python `None` (handled by `text or ""`). -/
def wants_link (t : Option String) : Bool :=
  scanSchedule true (t.getD "").toList

/-- Modelled from the claim's words (for the refinement direction of C6):
`s` contains one of the schedule keywords as a whole word, case-insensitively
— some occurrence matches a keyword letter-for-letter under `re.IGNORECASE`
and is flanked on both sides by nothing or by a non-word character. -/
def ContainsScheduleWord (s : String) : Prop :=
  ∃ pre mid post kw, s.toList = pre ++ mid ++ post ∧
    kw ∈ SCHEDULE_WORDS ∧
    List.Forall₂ (fun k c => matchesKwChar k c = true) kw mid ∧
    (∀ c, pre.getLast? = some c → isWordChar c = false) ∧
    (∀ c, post.head? = some c → isWordChar c = false)

lemma matchKw_some_iff (kw cs rest : List Char) :
    matchKw kw cs = some rest ↔
      ∃ mid, cs = mid ++ rest ∧
        List.Forall₂ (fun k c => matchesKwChar k c = true) kw mid := by
  induction kw generalizing cs with
  | nil =>
    rw [matchKw]
    constructor
    · rintro ⟨rfl⟩
      exact ⟨[], rfl, List.Forall₂.nil⟩
    · rintro ⟨mid, rfl, hm⟩
      cases hm
      rfl
  | cons k ks ih =>
    cases cs with
    | nil =>
      rw [matchKw]
      constructor
      · intro h; cases h
      · rintro ⟨mid, hcs, hm⟩
        cases hm with
        | cons h1 h2 => cases hcs
    | cons c cs' =>
      rw [matchKw]
      split
      · next hc =>
        rw [ih]
        constructor
        · rintro ⟨mid, rfl, hm⟩
          exact ⟨c :: mid, rfl, List.Forall₂.cons hc hm⟩
        · rintro ⟨mid, hcs, hm⟩
          cases hm with
          | cons h1 h2 =>
            injection hcs with e1 e2
            subst e1
            exact ⟨_, e2, h2⟩
      · next hc =>
        constructor
        · intro h; cases h
        · rintro ⟨mid, hcs, hm⟩
          cases hm with
          | cons h1 h2 =>
            injection hcs with e1 e2
            subst e1
            exact absurd h1 hc

lemma kwHitAt_iff (prevOk : Bool) (cs : List Char) :
    kwHitAt prevOk cs = true ↔
      prevOk = true ∧ ∃ mid post kw, cs = mid ++ post ∧ kw ∈ SCHEDULE_WORDS ∧
        List.Forall₂ (fun k c => matchesKwChar k c = true) kw mid ∧
        (∀ c, post.head? = some c → isWordChar c = false) := by
  unfold kwHitAt
  rw [Bool.and_eq_true, List.any_eq_true]
  apply and_congr_right
  intro _
  constructor
  · rintro ⟨kw, hkw, hmatch⟩
    cases hm : matchKw kw cs with
    | none => rw [hm] at hmatch; cases hmatch
    | some rest =>
      rw [hm, Option.map_some', Option.getD_some] at hmatch
      obtain ⟨mid, rfl, hf⟩ := (matchKw_some_iff kw _ rest).mp hm
      refine ⟨mid, rest, kw, rfl, hkw, hf, ?_⟩
      intro c hc
      unfold boundaryAfter at hmatch
      rw [hc] at hmatch
      simpa using hmatch
  · rintro ⟨mid, post, kw, rfl, hkw, hf, hb⟩
    refine ⟨kw, hkw, ?_⟩
    rw [(matchKw_some_iff _ _ _).mpr ⟨mid, rfl, hf⟩, Option.map_some', Option.getD_some]
    unfold boundaryAfter
    cases hp : post.head? with
    | none => rfl
    | some c => simp [hb c hp]

lemma scanSchedule_iff (cs : List Char) : ∀ prevOk : Bool,
    scanSchedule prevOk cs = true ↔
      ∃ pre mid post kw, cs = pre ++ mid ++ post ∧ kw ∈ SCHEDULE_WORDS ∧
        List.Forall₂ (fun k c => matchesKwChar k c = true) kw mid ∧
        (pre = [] → prevOk = true) ∧
        (∀ c, pre.getLast? = some c → isWordChar c = false) ∧
        (∀ c, post.head? = some c → isWordChar c = false) := by
  induction cs with
  | nil =>
    intro prevOk
    have hL : scanSchedule prevOk [] = false := by cases prevOk <;> decide
    rw [hL]
    constructor
    · intro h; cases h
    · rintro ⟨pre, mid, post, kw, happ, hkw, hf, -, -, -⟩
      obtain ⟨h1, h2⟩ := List.append_eq_nil.mp happ.symm
      obtain ⟨h3, h4⟩ := List.append_eq_nil.mp h1
      subst h4
      cases hf
      exact absurd hkw (by decide)
  | cons c cs' ih =>
    intro prevOk
    rw [scanSchedule, Bool.or_eq_true, kwHitAt_iff, ih]
    constructor
    · rintro (⟨hprev, mid, post, kw, happ, hkw, hf, hb⟩ |
        ⟨pre, mid, post, kw, happ, hkw, hf, hpre, hlast, hb⟩)
      · exact ⟨[], mid, post, kw, by simpa using happ, hkw, hf, fun _ => hprev, by simp, hb⟩
      · refine ⟨c :: pre, mid, post, kw, by simp [happ], hkw, hf, by simp, ?_, hb⟩
        intro x hx
        cases pre with
        | nil =>
          simp only [List.getLast?_singleton, Option.some.injEq] at hx
          subst hx
          have h1 := hpre rfl
          simpa using h1
        | cons p ps =>
          rw [List.getLast?_cons_cons] at hx
          exact hlast x hx
    · rintro ⟨pre, mid, post, kw, happ, hkw, hf, hpre, hlast, hb⟩
      cases pre with
      | nil =>
        exact Or.inl ⟨hpre rfl, mid, post, kw, by simpa using happ, hkw, hf, hb⟩
      | cons p ps =>
        right
        rw [List.cons_append, List.cons_append] at happ
        injection happ with h1 h2
        subst h1
        refine ⟨ps, mid, post, kw, h2, hkw, hf, ?_, ?_, hb⟩
        · intro hps
          subst hps
          have := hlast c (by simp)
          simp [this]
        · intro x hx
          cases ps with
          | nil => cases hx
          | cons q qs =>
            refine hlast x ?_
            rw [List.getLast?_cons_cons]
            exact hx

/-- **C6.** `wants_link` returns `true` exactly on texts containing one of the
schedule keywords as a whole word (case-insensitively, with Python `re`'s
Unicode `\w` boundaries and `IGNORECASE` folding); it returns `false` on
`None` and on the empty string (helpers.py, lines 100-106; whole-word
containment is the spec-side predicate `ContainsScheduleWord`). -/
theorem wants_link_iff_contains_schedule_word :
    (∀ s : String, wants_link (some s) = true ↔ ContainsScheduleWord s) ∧
    wants_link none = false ∧ wants_link (some "") = false := by
  refine ⟨?_, by decide, by decide⟩
  intro s
  unfold wants_link ContainsScheduleWord
  rw [scanSchedule_iff]
  constructor
  · rintro ⟨pre, mid, post, kw, h1, h2, h3, -, h5, h6⟩
    exact ⟨pre, mid, post, kw, h1, h2, h3, h5, h6⟩
  · rintro ⟨pre, mid, post, kw, h1, h2, h3, h5, h6⟩
    exact ⟨pre, mid, post, kw, h1, h2, h3, fun _ => rfl, h5, h6⟩

/-- Witness for `wants_link_iff_contains_schedule_word`: "quiero el enlace"
contains `enlace` as a whole word and is accepted; "my calendars" holds
`calendar` only inside a longer word and is rejected; "lo agendaré" is also
rejected — `é` is a Unicode word character, so `agendar` has no right
boundary there. -/
theorem wants_link_iff_witness :
    ContainsScheduleWord "quiero el enlace" ∧
    ¬ ContainsScheduleWord "my calendars" ∧
    ¬ ContainsScheduleWord "lo agendaré" ∧
    wants_link none = false :=
  ⟨(wants_link_iff_contains_schedule_word.1 "quiero el enlace").mp (by decide),
    fun h => by
      have := (wants_link_iff_contains_schedule_word.1 "my calendars").mpr h
      exact absurd this (by decide),
    fun h => by
      have := (wants_link_iff_contains_schedule_word.1 "lo agendaré").mpr h
      exact absurd this (by decide),
    wants_link_iff_contains_schedule_word.2.1⟩

/-! ## Instagram webhook de-duplication (instagram_webhook.py, lines 33-41)

`_SEEN_MIDS` is a `deque(maxlen=1000)` (appending to a full deque silently
discards the leftmost element) and `_SEEN_SET` a `set`; `_seen_mid` records
fresh non-empty message ids and answers whether an id was already seen.
`handle_one` (lines 271-273) drops events whose id was seen. -/

/-- The global de-duplication state: the deque `_SEEN_MIDS` (head = oldest)
and the set `_SEEN_SET`. -/
structure SeenState where
  mids : List String
  seenSet : Finset String

/-- `collections.deque(maxlen=1000).append`: appending to a full deque
silently discards the leftmost element. -/
def dequeAppend (d : List String) (x : String) : List String :=
  if d.length < 1000 then d ++ [x] else d.tail ++ [x]

/-- `_seen_mid` (instagram_webhook.py, lines 35-41). -/
def seen_mid (st : SeenState) (mid : String) : Bool × SeenState :=
  if mid = "" then (false, st)
  else if mid ∈ st.seenSet then (true, st)
  else
    if 1000 < (insert mid st.seenSet).card then
      match dequeAppend st.mids mid with
      | [] => (false, ⟨[], insert mid st.seenSet⟩)
      | old :: rest => (false, ⟨rest, (insert mid st.seenSet).erase old⟩)
    else (false, ⟨dequeAppend st.mids mid, insert mid st.seenSet⟩)

/-- The entry guard of `handle_one` (instagram_webhook.py, lines 271-273):
the event is processed only when it has a sender and text, is not an echo,
and its `mid` is fresh; `or` short-circuits, so `_seen_mid` only runs (and
only updates the state) when `is_echo` is false. -/
def handle_one_guard (st : SeenState) (psid text mid : String) (is_echo : Bool) :
    Bool × SeenState :=
  if psid = "" ∨ text = "" then (false, st)
  else if is_echo then (false, st)
  else (!(seen_mid st mid).1, (seen_mid st mid).2)

/-- Invariant of every reachable de-duplication state: the deque holds at
most 1000 distinct ids, all remembered in the set, and the set exceeds the
deque by at most one id (the one entry a full-deque `append` can silently
discard before the explicit eviction runs). -/
def SeenInv (st : SeenState) : Prop :=
  st.mids.length ≤ 1000 ∧
  st.seenSet.card ≤ 1000 ∧
  st.seenSet.card ≤ st.mids.length + 1 ∧
  st.mids.Nodup ∧
  (∀ x ∈ st.mids, x ∈ st.seenSet)

lemma dequeAppend_ne_nil (d : List String) (x : String) : dequeAppend d x ≠ [] := by
  unfold dequeAppend
  split <;> simp

lemma mem_dequeAppend (d : List String) (x y : String) (hy : y ∈ dequeAppend d x) :
    y ∈ d ∨ y = x := by
  unfold dequeAppend at hy
  split at hy <;>
    (rcases List.mem_append.mp hy with h | h
     · first
        | exact Or.inl h
        | exact Or.inl (List.mem_of_mem_tail h)
     · exact Or.inr (List.mem_singleton.mp h))

lemma nodup_dequeAppend (d : List String) (x : String) (hd : d.Nodup) (hx : x ∉ d) :
    (dequeAppend d x).Nodup := by
  unfold dequeAppend
  split
  · rw [List.nodup_append]
    refine ⟨hd, List.nodup_singleton x, ?_⟩
    intro a ha hax
    rw [List.mem_singleton] at hax
    exact hx (hax ▸ ha)
  · rw [List.nodup_append]
    refine ⟨hd.sublist (List.tail_sublist d), List.nodup_singleton x, ?_⟩
    intro a ha hax
    rw [List.mem_singleton] at hax
    exact hx (hax ▸ List.mem_of_mem_tail ha)

lemma dequeAppend_length (d : List String) (x : String) (h1000 : d.length ≤ 1000) :
    (dequeAppend d x).length = if d.length < 1000 then d.length + 1 else 1000 := by
  unfold dequeAppend
  split
  · next h => simp
  · next h =>
    have hlen : d.length = 1000 := le_antisymm h1000 (not_lt.mp h)
    simp [List.length_append, List.length_tail, hlen]

lemma head_dequeAppend_mem (d : List String) (x old : String) (rest : List String)
    (hlen : 999 ≤ d.length) (hd : dequeAppend d x = old :: rest) : old ∈ d := by
  unfold dequeAppend at hd
  split at hd
  · cases d with
    | nil => simp at hlen
    | cons a t =>
      rw [List.cons_append] at hd
      injection hd with h1 _
      exact h1 ▸ List.mem_cons_self _ _
  · next h =>
    cases d with
    | nil => simp at hlen
    | cons a t =>
      cases t with
      | nil => simp at h
      | cons b bs =>
        simp only [List.tail_cons, List.cons_append] at hd
        injection hd with h1 _
        exact h1 ▸ List.mem_cons_of_mem _ (List.mem_cons_self _ _)

lemma seen_mid_inv (st : SeenState) (mid : String) (h : SeenInv st) :
    SeenInv (seen_mid st mid).2 := by
  obtain ⟨hlen, hcard, hcl, hnd, hsub⟩ := h
  unfold seen_mid
  by_cases h0 : mid = ""
  · rw [if_pos h0]; exact ⟨hlen, hcard, hcl, hnd, hsub⟩
  rw [if_neg h0]
  by_cases h1 : mid ∈ st.seenSet
  · rw [if_pos h1]; exact ⟨hlen, hcard, hcl, hnd, hsub⟩
  rw [if_neg h1]
  have hmidd : mid ∉ st.mids := fun hm => h1 (hsub mid hm)
  have hcardi : (insert mid st.seenSet).card = st.seenSet.card + 1 :=
    Finset.card_insert_of_not_mem h1
  have hdnd : (dequeAppend st.mids mid).Nodup := nodup_dequeAppend _ _ hnd hmidd
  have hdsub : ∀ x ∈ dequeAppend st.mids mid, x ∈ insert mid st.seenSet := by
    intro x hx
    rcases mem_dequeAppend _ _ _ hx with hx | rfl
    · exact Finset.mem_insert_of_mem (hsub x hx)
    · exact Finset.mem_insert_self _ _
  have hdlen : (dequeAppend st.mids mid).length =
      if st.mids.length < 1000 then st.mids.length + 1 else 1000 :=
    dequeAppend_length _ _ hlen
  by_cases h2 : 1000 < (insert mid st.seenSet).card
  · rw [if_pos h2]
    have hc1000 : st.seenSet.card = 1000 := by omega
    have hm999 : 999 ≤ st.mids.length := by omega
    have hd1000 : (dequeAppend st.mids mid).length = 1000 := by
      rw [hdlen]; split <;> omega
    cases hd : dequeAppend st.mids mid with
    | nil => exact absurd hd (dequeAppend_ne_nil _ _)
    | cons old rest =>
      show SeenInv ⟨rest, (insert mid st.seenSet).erase old⟩
      have hcons : (old :: rest).Nodup := hd ▸ hdnd
      have holdmem : old ∈ insert mid st.seenSet := hdsub old (hd ▸ List.mem_cons_self _ _)
      have hrlen : rest.length = 999 := by
        have h' : (old :: rest).length = 1000 := hd ▸ hd1000
        simp at h'
        omega
      have hecard : ((insert mid st.seenSet).erase old).card = 1000 := by
        rw [Finset.card_erase_of_mem holdmem, hcardi, hc1000]
      have hsub' : ∀ x ∈ rest, x ∈ (insert mid st.seenSet).erase old := by
        intro x hx
        have hxd : x ∈ dequeAppend st.mids mid := hd ▸ List.mem_cons_of_mem _ hx
        have hxne : x ≠ old := by
          intro hxx
          exact (List.nodup_cons.mp hcons).1 (hxx ▸ hx)
        exact Finset.mem_erase.mpr ⟨hxne, hdsub x hxd⟩
      have hA : rest.length ≤ 1000 := by omega
      have hB : ((insert mid st.seenSet).erase old).card ≤ 1000 := by omega
      have hC : ((insert mid st.seenSet).erase old).card ≤ rest.length + 1 := by omega
      exact ⟨hA, hB, hC, (List.nodup_cons.mp hcons).2, hsub'⟩
  · rw [if_neg h2]
    show SeenInv ⟨dequeAppend st.mids mid, insert mid st.seenSet⟩
    have hA : (dequeAppend st.mids mid).length ≤ 1000 := by rw [hdlen]; split <;> omega
    have hB : (insert mid st.seenSet).card ≤ 1000 := by omega
    have hC : (insert mid st.seenSet).card ≤ (dequeAppend st.mids mid).length + 1 := by
      rw [hdlen]; split <;> omega
    exact ⟨hA, hB, hC, hdnd, hdsub⟩

/-- Initial de-duplication state: empty deque, empty set. -/
def seenInit : SeenState := ⟨[], ∅⟩

/-- De-duplication state after a whole sequence of `_seen_mid` calls. -/
def runSeen (mids : List String) : SeenState :=
  mids.foldl (fun st mid => (seen_mid st mid).2) seenInit

lemma seenInv_init : SeenInv seenInit :=
  ⟨by simp [seenInit], by simp [seenInit], by simp [seenInit], List.nodup_nil,
    by simp [seenInit]⟩

lemma seenInv_foldl (l : List String) : ∀ st, SeenInv st →
    SeenInv (l.foldl (fun st mid => (seen_mid st mid).2) st) := by
  induction l with
  | nil => intro st h; exact h
  | cons a t ih => intro st h; exact ih _ (seen_mid_inv st a h)

/-- **C8.** Bounded de-duplication memory: after any sequence of `_seen_mid`
calls (arbitrarily many distinct non-empty ids included), the remembered set
`_SEEN_SET` has at most 1000 elements. -/
theorem seen_set_card_le_1000 (mids : List String) :
    (runSeen mids).seenSet.card ≤ 1000 :=
  (seenInv_foldl mids seenInit seenInv_init).2.1

lemma seen_mid_true_of_mem (st : SeenState) (mid : String) (hne : mid ≠ "")
    (hmem : mid ∈ st.seenSet) : (seen_mid st mid).1 = true := by
  unfold seen_mid
  rw [if_neg hne, if_pos hmem]

lemma seen_mid_fresh (st : SeenState) (mid : String) (hinv : SeenInv st)
    (hne : mid ≠ "") (hnew : mid ∉ st.seenSet) :
    (seen_mid st mid).1 = false ∧ mid ∈ (seen_mid st mid).2.seenSet := by
  obtain ⟨hlen, hcard, hcl, hnd, hsub⟩ := hinv
  have hmidd : mid ∉ st.mids := fun hm => hnew (hsub mid hm)
  have hcardi : (insert mid st.seenSet).card = st.seenSet.card + 1 :=
    Finset.card_insert_of_not_mem hnew
  unfold seen_mid
  rw [if_neg hne, if_neg hnew]
  by_cases h2 : 1000 < (insert mid st.seenSet).card
  · rw [if_pos h2]
    have hm999 : 999 ≤ st.mids.length := by omega
    cases hd : dequeAppend st.mids mid with
    | nil => exact absurd hd (dequeAppend_ne_nil _ _)
    | cons old rest =>
      refine ⟨rfl, Finset.mem_erase.mpr ⟨?_, Finset.mem_insert_self _ _⟩⟩
      have : old ∈ st.mids := head_dequeAppend_mem _ _ _ _ hm999 hd
      exact fun hmo => hmidd (hmo ▸ this)
  · rw [if_neg h2]
    exact ⟨rfl, Finset.mem_insert_self _ _⟩

/-- **C1.** De-duplication of inbound webhook events: a first `_seen_mid`
call with a fresh non-empty id returns `False`; an immediately following
call with the same id returns `True`, so `handle_one`'s guard skips the
duplicate event whatever its sender, text, or echo flag; and a call with an
empty id always returns `False` and leaves the state untouched. -/
theorem seen_mid_dedup_spec (st : SeenState) (mid : String) (hinv : SeenInv st)
    (hne : mid ≠ "") (hnew : mid ∉ st.seenSet) :
    (seen_mid st mid).1 = false ∧
    (seen_mid (seen_mid st mid).2 mid).1 = true ∧
    (∀ psid text : String, ∀ is_echo : Bool,
      (handle_one_guard (seen_mid st mid).2 psid text mid is_echo).1 = false) ∧
    (∀ st' : SeenState, (seen_mid st' "").1 = false ∧ (seen_mid st' "").2 = st') := by
  obtain ⟨h1, h2⟩ := seen_mid_fresh st mid hinv hne hnew
  have hdup : (seen_mid (seen_mid st mid).2 mid).1 = true :=
    seen_mid_true_of_mem _ _ hne h2
  refine ⟨h1, hdup, ?_, ?_⟩
  · intro psid text is_echo
    unfold handle_one_guard
    by_cases hp : psid = "" ∨ text = ""
    · rw [if_pos hp]
    · rw [if_neg hp]
      cases is_echo with
      | true => rw [if_pos rfl]
      | false =>
        rw [if_neg (by simp)]
        simp [hdup]
  · intro st'
    unfold seen_mid
    rw [if_pos rfl]
    exact ⟨rfl, rfl⟩

/-- Witness for `seen_mid_dedup_spec`: from the initial state, the id `"m1"`
is fresh, the duplicate is skipped with sender `"u"` and text `"hola"`. -/
theorem seen_mid_dedup_spec_witness :
    (seen_mid seenInit "m1").1 = false ∧
    (seen_mid (seen_mid seenInit "m1").2 "m1").1 = true ∧
    (handle_one_guard (seen_mid seenInit "m1").2 "u" "hola" "m1" false).1 = false ∧
    (seen_mid seenInit "").1 = false ∧ (seen_mid seenInit "").2 = seenInit := by
  have h := seen_mid_dedup_spec seenInit "m1" seenInv_init (by decide) (by simp [seenInit])
  exact ⟨h.1, h.2.1, h.2.2.1 "u" "hola" false, (h.2.2.2 seenInit).1, (h.2.2.2 seenInit).2⟩

/-! ## Twilio ↔ OpenAI Realtime bridge event loop
(voice_webrtc_bridge.py, `stream_ws` / `pump_ai_to_twilio`, lines 186-412)

The mutable state of one call: the commit bookkeeping
(`have_appended_since_last_commit`, `appended_samples_since_last_commit`,
`last_commit_time`, `last_append_time`), the single-response gate `ai_busy`,
and `greeting_sent`.  Wall-clock instants (`time.time()`) are `ℚ` seconds.
The two loops — the Twilio receive loop and the AI receive thread — are
modelled as one step relation over the union of their events. -/

/-- Mutable per-call state of the bridge. -/
structure BState where
  have_appended : Bool
  appended_samples : Nat
  last_commit_time : ℚ
  last_append_time : ℚ
  ai_busy : Bool
  greeting_sent : Bool

/-- Messages the bridge sends over the OpenAI Realtime websocket. -/
inductive AiMsg where
  | sessionUpdate
  | bufferClear
  | bufferAppend (nsamples : Nat)
  | bufferCommit
  | responseCreate
deriving DecidableEq

/-- Events driving the bridge: Twilio `start` / `media` / `stop` frames and
the AI-side messages handled by `pump_ai_to_twilio` (identified by their
`type` string). -/
inductive BEvent where
  | start (cfgChanged : Bool)
  | media (hasPayload : Bool) (nsamples : Nat) (now : ℚ)
  | stop
  | aiEvent (t : String)
deriving DecidableEq

/-- `MIN_COMMIT_GAP_SEC = 1.2` (voice_webrtc_bridge.py, line 276). -/
def MIN_COMMIT_GAP_SEC : ℚ := 12 / 10

/-- `MIN_SILENCE_GAP_SEC = 0.6` (line 277). -/
def MIN_SILENCE_GAP_SEC : ℚ := 6 / 10

/-- `MIN_COMMIT_SAMPLES = 3200` (line 278): 200 ms at 16 kHz. -/
def MIN_COMMIT_SAMPLES : Nat := 3200

/-- The `"start"` branch (lines 292-356): reset the counters and `ai_busy`,
clear the Realtime buffer, optionally update the session, and (once per
connection) have OpenAI speak the greeting, marking it busy. -/
def handle_start (st : BState) (cfgChanged : Bool) : BState × List AiMsg :=
  if st.greeting_sent then
    ({ st with have_appended := false, appended_samples := 0,
               last_commit_time := 0, last_append_time := 0, ai_busy := false },
     (if cfgChanged then [AiMsg.sessionUpdate] else []) ++ [AiMsg.bufferClear])
  else
    ({ st with have_appended := false, appended_samples := 0,
               last_commit_time := 0, last_append_time := 0, ai_busy := true,
               greeting_sent := true },
     (if cfgChanged then [AiMsg.sessionUpdate] else []) ++
       [AiMsg.bufferClear, AiMsg.responseCreate])

/-- The state after the optional append of a `"media"` frame (lines 358-384):
with a payload, the decoded samples are appended and the counters advance. -/
def mediaAppended (st : BState) (hasPayload : Bool) (nsamples : Nat) (now : ℚ) : BState :=
  if hasPayload then
    { st with have_appended := true,
              appended_samples := st.appended_samples + nsamples,
              last_append_time := now }
  else st

/-- The `"media"` branch (lines 358-408): append, then the commit heuristic —
commit and request a response only when something was appended, no response
is in flight, and the three thresholds are met. -/
def handle_media (st : BState) (hasPayload : Bool) (nsamples : Nat) (now : ℚ) :
    BState × List AiMsg :=
  let st1 := mediaAppended st hasPayload nsamples now
  let msgs1 := if hasPayload then [AiMsg.bufferAppend nsamples] else []
  if st1.have_appended = true ∧ st1.ai_busy = false then
    if MIN_COMMIT_SAMPLES ≤ st1.appended_samples ∧
        MIN_COMMIT_GAP_SEC ≤ now - st1.last_commit_time ∧
        MIN_SILENCE_GAP_SEC ≤ now - st1.last_append_time then
      ({ st1 with ai_busy := true, last_commit_time := now,
                  have_appended := false, appended_samples := 0 },
       msgs1 ++ [AiMsg.bufferCommit, AiMsg.responseCreate])
    else (st1, msgs1)
  else (st1, msgs1)

/-- `pump_ai_to_twilio` (lines 217-270): only `response.completed` and
`response.stopped` touch the shared state, clearing `ai_busy`. -/
def handle_ai (st : BState) (t : String) : BState :=
  if t = "response.completed" ∨ t = "response.stopped" then { st with ai_busy := false }
  else st

/-- One step of the interleaved bridge event loop. -/
def bstep (st : BState) (e : BEvent) : BState × List AiMsg :=
  match e with
  | .start cfgChanged => handle_start st cfgChanged
  | .media hasPayload nsamples now => handle_media st hasPayload nsamples now
  | .stop => (st, [])
  | .aiEvent t => (handle_ai st t, [])

/-- A run of the loop over a list of events, collecting all sent messages. -/
def brun (st : BState) : List BEvent → BState × List AiMsg
  | [] => (st, [])
  | e :: es =>
    ((brun (bstep st e).1 es).1, (bstep st e).2 ++ (brun (bstep st e).1 es).2)

/-- Events that can clear `ai_busy`: a model `response.completed` /
`response.stopped`, or a new Twilio `start`. -/
def clearsBusy : BEvent → Bool
  | .start _ => true
  | .aiEvent t => t = "response.completed" || t = "response.stopped"
  | _ => false

lemma mediaAppended_ai_busy (st : BState) (p : Bool) (n : Nat) (now : ℚ) :
    (mediaAppended st p n now).ai_busy = st.ai_busy := by
  cases p <;> simp [mediaAppended]

/-- **C2.** Voice-activity / commit heuristic: in the `stream_ws` media loop,
`input_audio_buffer.commit` is sent only at a media event where all three
thresholds hold — at least 3200 appended int16 samples since the last commit
(200 ms at 16 kHz), at least 1.2 s since the last commit, and at least 0.6 s
since the last appended frame; in particular a commit with less appended
audio is never sent.  (The silence threshold forces the triggering media
event to carry no payload, so the thresholds are read off the entry state.) -/
theorem commit_needs_thresholds (st : BState) (hasPayload : Bool) (nsamples : Nat) (now : ℚ)
    (hc : AiMsg.bufferCommit ∈ (handle_media st hasPayload nsamples now).2) :
    hasPayload = false ∧
    MIN_COMMIT_SAMPLES ≤ st.appended_samples ∧
    MIN_COMMIT_GAP_SEC ≤ now - st.last_commit_time ∧
    MIN_SILENCE_GAP_SEC ≤ now - st.last_append_time := by
  simp only [handle_media] at hc
  split at hc
  · split at hc
    · next hcond =>
      cases hasPayload with
      | true =>
        exfalso
        have h3 := hcond.2.2
        simp [mediaAppended, MIN_SILENCE_GAP_SEC] at h3
        norm_num at h3
      | false =>
        refine ⟨rfl, ?_, ?_, ?_⟩
        · simpa [mediaAppended] using hcond.1
        · simpa [mediaAppended] using hcond.2.1
        · simpa [mediaAppended] using hcond.2.2
    · cases hasPayload <;> simp at hc
  · cases hasPayload <;> simp at hc

/-- Witness for `commit_needs_thresholds`: with 3200 samples pending, last
commit at `t = 0`, last append at `t = 0` and the line quiet, a payload-less
media event at `t = 2` commits. -/
theorem commit_needs_thresholds_witness :
    (false : Bool) = false ∧
    MIN_COMMIT_SAMPLES ≤ 3200 ∧
    MIN_COMMIT_GAP_SEC ≤ (2 : ℚ) - 0 ∧
    MIN_SILENCE_GAP_SEC ≤ (2 : ℚ) - 0 :=
  commit_needs_thresholds ⟨true, 3200, 0, 0, false, true⟩ false 0 2
    (by norm_num [handle_media, mediaAppended, MIN_COMMIT_SAMPLES,
      MIN_COMMIT_GAP_SEC, MIN_SILENCE_GAP_SEC])

lemma busy_frozen_step (st : BState) (e : BEvent) (hb : st.ai_busy = true)
    (hcl : clearsBusy e = false) :
    (bstep st e).1.ai_busy = true ∧
    AiMsg.bufferCommit ∉ (bstep st e).2 ∧
    AiMsg.responseCreate ∉ (bstep st e).2 := by
  cases e with
  | start cfg => simp [clearsBusy] at hcl
  | media p n now =>
    have hb1 : (mediaAppended st p n now).ai_busy = true := by
      rw [mediaAppended_ai_busy]; exact hb
    simp only [bstep, handle_media]
    rw [if_neg (by simp [hb1])]
    refine ⟨hb1, ?_, ?_⟩ <;> cases p <;> simp
  | stop => exact ⟨hb, by simp [bstep], by simp [bstep]⟩
  | aiEvent t =>
    have ht : ¬(t = "response.completed" ∨ t = "response.stopped") := by
      simp [clearsBusy] at hcl
      simp [hcl]
    simp only [bstep, handle_ai]
    rw [if_neg ht]
    exact ⟨hb, by simp, by simp⟩

/-- **C3.** Turn-taking / single active response: `response.create` is sent
only by steps that leave `ai_busy` set; on a media event it is sent only when
`ai_busy` was clear; and while `ai_busy` is set, any run of events containing
no `response.completed` / `response.stopped` / `start` sends no commit and no
second `response.create` and leaves `ai_busy` set. -/
theorem single_active_response (st : BState) :
    (∀ e : BEvent, AiMsg.responseCreate ∈ (bstep st e).2 → (bstep st e).1.ai_busy = true) ∧
    (∀ (p : Bool) (n : Nat) (now : ℚ),
      AiMsg.responseCreate ∈ (handle_media st p n now).2 → st.ai_busy = false) ∧
    (∀ evs : List BEvent, st.ai_busy = true → (∀ e ∈ evs, clearsBusy e = false) →
      (brun st evs).1.ai_busy = true ∧
      AiMsg.bufferCommit ∉ (brun st evs).2 ∧
      AiMsg.responseCreate ∉ (brun st evs).2) := by
  refine ⟨?_, ?_, ?_⟩
  · intro e hc
    cases e with
    | start cfg =>
      simp only [bstep, handle_start] at hc ⊢
      split at hc
      · exfalso; revert hc; cases cfg <;> simp
      · next hgs =>
        rw [if_neg hgs]
    | media p n now =>
      simp only [bstep, handle_media] at hc ⊢
      split at hc
      · next h₁ =>
        split at hc
        · next h₂ =>
          rw [if_pos h₁, if_pos h₂]
        · exfalso; revert hc; cases p <;> simp
      · exfalso; revert hc; cases p <;> simp
    | stop => cases hc
    | aiEvent t => cases hc
  · intro p n now hc
    simp only [handle_media] at hc
    split at hc
    · next hcond =>
      rw [← mediaAppended_ai_busy st p n now]
      exact hcond.2
    · exfalso; revert hc; cases p <;> simp
  · intro evs
    induction evs generalizing st with
    | nil => intro hb _; exact ⟨hb, by simp [brun], by simp [brun]⟩
    | cons e es ih =>
      intro hb hcl
      have h1 := busy_frozen_step st e hb (hcl e (List.mem_cons_self _ _))
      have h2 := ih (bstep st e).1 h1.1 (fun x hx => hcl x (List.mem_cons_of_mem _ hx))
      refine ⟨h2.1, ?_, ?_⟩
      · simp only [brun, List.mem_append]
        rintro (h | h)
        · exact h1.2.1 h
        · exact h2.2.1 h
      · simp only [brun, List.mem_append]
        rintro (h | h)
        · exact h1.2.2 h
        · exact h2.2.2 h

/-- Witness for `single_active_response`: from a busy state, a quiet media
event at `t = 9` emits nothing and keeps `ai_busy`; the media branch's
`response.create` at `t = 2` from an idle full buffer certifies the
busy-precondition conjunct. -/
theorem single_active_response_witness :
    (bstep ⟨true, 3200, 0, 0, false, true⟩ (.media false 0 2)).1.ai_busy = true ∧
    (⟨true, 3200, 0, 0, false, true⟩ : BState).ai_busy = false ∧
    (brun ⟨true, 3200, 0, 0, true, true⟩ [.media false 0 9]).1.ai_busy = true ∧
    AiMsg.bufferCommit ∉ (brun ⟨true, 3200, 0, 0, true, true⟩ [.media false 0 9]).2 := by
  have h₁ := (single_active_response ⟨true, 3200, 0, 0, false, true⟩).1 (.media false 0 2)
    (by norm_num [bstep, handle_media, mediaAppended, MIN_COMMIT_SAMPLES,
      MIN_COMMIT_GAP_SEC, MIN_SILENCE_GAP_SEC])
  have h₂ := (single_active_response ⟨true, 3200, 0, 0, false, true⟩).2.1 false 0 2
    (by norm_num [handle_media, mediaAppended, MIN_COMMIT_SAMPLES,
      MIN_COMMIT_GAP_SEC, MIN_SILENCE_GAP_SEC])
  have h₃ := (single_active_response ⟨true, 3200, 0, 0, true, true⟩).2.2 [.media false 0 9]
    rfl (by intro e he; simp at he; rw [he]; rfl)
  exact ⟨h₁, h₂, h₃.1, h₃.2.1⟩

/-! ## Python dicts as association lists -/

/-- Python dict read `d.get(k)` over an association-list model. -/
def alookup {α : Type} : List (String × α) → String → Option α
  | [], _ => none
  | (k', v) :: rest, k => if k' = k then some v else alookup rest k

/-- Python dict write `d[k] = v`: update in place, or append a new entry. -/
def aset {α : Type} (l : List (String × α)) (k : String) (v : α) : List (String × α) :=
  if (alookup l k).isSome then l.map (fun p => if p.1 = k then (k, v) else p)
  else l ++ [(k, v)]

/-! ## Session hydration (state.py, `hydrate_session_from_firebase`, lines 63-108)

The module-level dicts of `state.py` that text messaging uses.  A Firebase
lead is its `historial` list (each entry a `texto`/`tipo` record; the
dict-shaped historial normalisation of lines 84-86 is modelled as the
already-normalised list).  `fb_get_lead_func` and `make_system_message_func`
are injected, as in the source. -/

/-- One OpenAI chat message. -/
structure ChatMsg where
  role : String
  content : String
deriving DecidableEq

/-- One `historial` record of a Firebase lead. -/
structure Reg where
  texto : String
  tipo : String
deriving DecidableEq

/-- A Firebase lead (the part `hydrate_session_from_firebase` reads). -/
structure Lead where
  historial : List Reg
deriving DecidableEq

/-- A bot tarjeta (the part `hydrate_session_from_firebase` reads). -/
structure BotCfg where
  name : String
  system_prompt : String
  prompt : String
deriving DecidableEq

/-- The in-memory session dicts of state.py (lines 13-17). -/
structure SessionState where
  session_history : List (String × List ChatMsg)
  last_message_time : List (String × Int)
  follow_up_flags : List (String × (Bool × Bool))
  agenda_state : List (String × (Bool × String × Int × Int × String × Bool))
  greeted_state : List (String × Bool)

/-- `role = "assistant" if (reg.get("tipo","user") != "user") else "user"`. -/
def regRole (r : Reg) : String := if r.tipo ≠ "user" then "assistant" else "user"

/-- `state.hydrate_session_from_firebase`.  The second component records
whether `fb_get_lead_func` was invoked. -/
def hydrate_session_from_firebase (st : SessionState) (clave_sesion : String)
    (bot_cfg : BotCfg) (sender_number : String)
    (fb_get_lead : String → String → Option Lead)
    (make_system_message : BotCfg → String) : SessionState × Bool :=
  if (alookup st.session_history clave_sesion).isSome then (st, false)
  else if bot_cfg.name = "" then (st, false)
  else
    (hydrateWrite st clave_sesion
      ((fb_get_lead bot_cfg.name sender_number).getD ⟨[]⟩).historial
      (make_system_message bot_cfg), true)
where
  /-- Lines 88-108: build the message list and write the three dicts. -/
  hydrateWrite (st : SessionState) (clave : String) (historial : List Reg)
      (sysmsg : String) : SessionState :=
    let msgs : List ChatMsg :=
      (if sysmsg ≠ "" then [⟨"system", sysmsg⟩] else []) ++
        (historial.filter (fun r => r.texto ≠ "")).map (fun r => ⟨regRole r, r.texto⟩)
    let st1 := if msgs ≠ [] then
        { st with session_history := aset st.session_history clave msgs } else st
    let st2 := if 0 < historial.length then
        { st1 with greeted_state := aset st1.greeted_state clave true } else st1
    { st2 with follow_up_flags := aset st2.follow_up_flags clave (false, false) }

/-- **C9.** Session hydration is a no-op on existing sessions: if
`clave_sesion` is already a key of `session_history`, the function returns
at once — `fb_get_lead_func` is not called, and `session_history`,
`greeted_state`, `follow_up_flags` and `agenda_state` are all unchanged. -/
theorem hydrate_noop_on_existing (st : SessionState) (clave : String) (cfg : BotCfg)
    (sender : String) (fb : String → String → Option Lead) (mf : BotCfg → String)
    (h : (alookup st.session_history clave).isSome) :
    hydrate_session_from_firebase st clave cfg sender fb mf = (st, false) ∧
    (hydrate_session_from_firebase st clave cfg sender fb mf).1.session_history
      = st.session_history ∧
    (hydrate_session_from_firebase st clave cfg sender fb mf).1.greeted_state
      = st.greeted_state ∧
    (hydrate_session_from_firebase st clave cfg sender fb mf).1.follow_up_flags
      = st.follow_up_flags ∧
    (hydrate_session_from_firebase st clave cfg sender fb mf).1.agenda_state
      = st.agenda_state ∧
    (hydrate_session_from_firebase st clave cfg sender fb mf).2 = false := by
  have he : hydrate_session_from_firebase st clave cfg sender fb mf = (st, false) := by
    unfold hydrate_session_from_firebase
    rw [if_pos h]
  exact ⟨he, by rw [he], by rw [he], by rw [he], by rw [he], by rw [he]⟩

/-- Witness for `hydrate_noop_on_existing`: a state whose `session_history`
already has the key `"whatsapp:+15551234567|bot"`. -/
theorem hydrate_noop_on_existing_witness :
    hydrate_session_from_firebase
      ⟨[("whatsapp:+15551234567|bot", [⟨"system", "sp"⟩])], [], [], [], []⟩
      "whatsapp:+15551234567|bot" ⟨"Bot", "sp", ""⟩ "+15551234567"
      (fun _ _ => none) (fun c => c.system_prompt)
      = (⟨[("whatsapp:+15551234567|bot", [⟨"system", "sp"⟩])], [], [], [], []⟩, false) :=
  (hydrate_noop_on_existing
    ⟨[("whatsapp:+15551234567|bot", [⟨"system", "sp"⟩])], [], [], [], []⟩
    "whatsapp:+15551234567|bot" ⟨"Bot", "sp", ""⟩ "+15551234567"
    (fun _ _ => none) (fun c => c.system_prompt) (by decide)).1

/-! ## Tarjeta inteligente loader (utils/bot_loader.py)

The `bots/tarjeta_inteligente` directory is modelled as an association list
from filename to parsed JSON content, in `glob` order (`none` marks a file
`json.load` rejects).  JSON objects are association lists with first-match
lookup.  The `os.path.normpath` traversal guard of `resolve_bot_path` has no
observable effect in this name-keyed model.  String helpers are over the
character-list model (ASCII case folding, as elsewhere in this file). -/

/-- Parsed JSON values. -/
inductive JVal where
  | null
  | bool (b : Bool)
  | num (n : Int)
  | str (s : String)
  | arr (xs : List JVal)
  | obj (kvs : List (String × JVal))

/-- Python `s.lower()` (ASCII). -/
def strLower (s : String) : String := String.mk (s.toList.map Char.toLower)

/-- Python `s.startswith(p)`. -/
def strStartsWith (s p : String) : Bool := p.toList.isPrefixOf s.toList

/-- Python `s[n:]`. -/
def strDrop (s : String) (n : Nat) : String := String.mk (s.toList.drop n)

/-- `_only_digits` (utils/bot_loader.py, lines 26-27). -/
def only_digits (s : String) : String := String.mk (s.toList.filter Char.isDigit)

/-- `_e164` (utils/bot_loader.py, lines 29-44). -/
def e164 (s : String) : Option String :=
  if only_digits s = "" then none
  else
    if (if (only_digits s).length = 10 then "1" ++ only_digits s else only_digits s).length = 11
        ∧ strStartsWith
            (if (only_digits s).length = 10 then "1" ++ only_digits s else only_digits s) "1" then
      some ("+" ++ (if (only_digits s).length = 10 then "1" ++ only_digits s else only_digits s))
    else none

/-- `no_prefix` of `_normalize_keys`: the id with a (case-insensitive)
`whatsapp:` prefix removed. -/
def noPrefixOf (b : String) : String :=
  if strStartsWith (strLower b) "whatsapp:" then strDrop b 9 else b

/-- `_normalize_keys` (utils/bot_loader.py, lines 46-83): the stripped id,
its prefix-less form, its (+1-)E.164 forms, and its digits, deduplicated
keeping order and dropping empties. -/
def normalize_keys (bot_id : String) : List String :=
  ((if String.mk (pyStrip bot_id.toList) ≠ "" then [String.mk (pyStrip bot_id.toList)] else []) ++
    (if strStartsWith (strLower (String.mk (pyStrip bot_id.toList))) "whatsapp:" then
      [noPrefixOf (String.mk (pyStrip bot_id.toList))] else []) ++
    (match e164 (noPrefixOf (String.mk (pyStrip bot_id.toList))) with
     | some e => [e, "whatsapp:" ++ e]
     | none => []) ++
    (if only_digits (noPrefixOf (String.mk (pyStrip bot_id.toList))) ≠ "" then
      [only_digits (noPrefixOf (String.mk (pyStrip bot_id.toList)))] else []))
    |>.foldl (fun out k => if k ≠ "" ∧ k ∉ out then out ++ [k] else out) []

/-- The `bots/tarjeta_inteligente` directory. -/
structure BotsDir where
  files : List (String × Option JVal)

/-- How a `load_bot` call can fail: `BotConfigNotFound`, an uncaught
`json.JSONDecodeError` from the direct-file branch, or the `AttributeError`
of `data["realtime"].setdefault(...)` on a non-dict `realtime` value. -/
inductive LoadErr where
  | botConfigNotFound
  | jsonError
  | attrError
deriving DecidableEq

/-- Python `dict.setdefault(k, v)` (insertion at the end). -/
def objSetdefault (kvs : List (String × JVal)) (k : String) (v : JVal) :
    List (String × JVal) :=
  if (alookup kvs k).isSome then kvs else kvs ++ [(k, v)]

/-- In-place update of an existing key. -/
def setKey (kvs : List (String × JVal)) (k : String) (v : JVal) :
    List (String × JVal) :=
  kvs.map (fun p => if p.1 = k then (k, v) else p)

/-- The default `["audio", "text"]` modalities. -/
def DEFAULT_MODALITIES : JVal := .arr [.str "audio", .str "text"]

/-- The object's entries when the value is a JSON object. -/
def asObj : JVal → Option (List (String × JVal))
  | .obj kvs => some kvs
  | _ => none

/-- `k in data and isinstance(data[k], dict)` combined with the read of
`data[k]`. -/
def objAt (kvs : List (String × JVal)) (k : String) : Option (List (String × JVal)) :=
  (alookup kvs k).bind asObj

/-- The key loop of `_search_in_bundles` for one parsed dict: the sub-dict
under the first variant key held with a dict value. -/
def bundleHitObj (keys : List String) (kvs : List (String × JVal)) :
    Option (List (String × JVal)) :=
  (keys.find? (fun k => (objAt kvs k).isSome)).bind (objAt kvs)

/-- One file of `_search_in_bundles` (lines 114-132): files that fail to
parse or are not dicts are skipped. -/
def bundleHit (keys : List String) (v : Option JVal) : Option (List (String × JVal)) :=
  match v with
  | some (.obj kvs) => bundleHitObj keys kvs
  | _ => none

/-- `_search_in_bundles` over the directory, in `glob` order. -/
def searchBundles (keys : List String) : List (String × Option JVal) →
    Option (List (String × JVal))
  | [] => none
  | (_, v) :: rest =>
    match bundleHit keys v with
    | some sub => some sub
    | none => searchBundles keys rest

/-- `resolve_bot_path` (lines 97-109): the first variant filename that is an
existing file. -/
def resolve_bot_path (dir : BotsDir) (bot_id : String) : Option String :=
  ((normalize_keys bot_id).map (fun v => v ++ ".json")).find?
    (fun f => (alookup dir.files f).isSome)

/-- Lines 167-172: infer `slug` (the last variant) when absent. -/
def addSlug (kvs3 : List (String × JVal)) (variants : List String) :
    List (String × JVal) :=
  if (alookup kvs3 "slug").isSome then kvs3
  else match variants.getLast? with
    | some v => kvs3 ++ [("slug", .str v)]
    | none => kvs3

/-- Lines 173-178: infer `whatsapp_number` (the first `whatsapp:+` variant)
when absent. -/
def addWhatsapp (kvs4 : List (String × JVal)) (variants : List String) :
    List (String × JVal) :=
  if (alookup kvs4 "whatsapp_number").isSome then kvs4
  else match variants.find? (fun v => strStartsWith v "whatsapp:+") with
    | some wa => kvs4 ++ [("whatsapp_number", .str wa)]
    | none => kvs4

/-- Lines 167-178: infer `slug` and `whatsapp_number` from the variants. -/
def finishDefaults (kvs3 : List (String × JVal)) (variants : List String) :
    List (String × JVal) :=
  addWhatsapp (addSlug kvs3 variants) variants

/-- The `instructions` / `realtime` / `modalities` defaults of `load_bot`
(lines 162-165) followed by the slug inference; fails with `attrError` when
the `realtime` value is not a dict. -/
def applyDefaults (kvs0 : List (String × JVal)) (variants : List String) :
    Except LoadErr (List (String × JVal)) :=
  match alookup (objSetdefault (objSetdefault kvs0 "instructions" (.obj []))
      "realtime" (.obj [])) "realtime" with
  | some (.obj rt) =>
    .ok (finishDefaults
      (setKey (objSetdefault (objSetdefault kvs0 "instructions" (.obj []))
          "realtime" (.obj []))
        "realtime" (.obj (objSetdefault rt "modalities" DEFAULT_MODALITIES)))
      variants)
  | _ => .error .attrError

/-- The bundle fallback of `load_bot` (lines 151-160): the sub-dict found by
`_search_in_bundles`, or `BotConfigNotFound`. -/
def loadFromBundles (dir : BotsDir) (bot_id : String) :
    Except LoadErr (List (String × JVal)) :=
  match searchBundles (normalize_keys bot_id) dir.files with
  | some sub => applyDefaults sub (normalize_keys bot_id)
  | none => .error .botConfigNotFound

/-- The direct-file branch of `load_bot` (lines 144-153): a dict gets the
defaults; a non-dict raises the caught `JSON inválido` `BotConfigNotFound`
and falls through to the bundle search; a file `json.load` rejects raises an
uncaught `JSONDecodeError`. -/
def loadDirect (dir : BotsDir) (bot_id : String) (path : String) :
    Except LoadErr (List (String × JVal)) :=
  match alookup dir.files path with
  | some (some (.obj kvs)) => applyDefaults kvs (normalize_keys bot_id)
  | some (some _) => loadFromBundles dir bot_id
  | some none => .error .jsonError
  | none => .error .botConfigNotFound

/-- `load_bot` (utils/bot_loader.py, lines 137-180). -/
def load_bot (dir : BotsDir) (bot_id : String) : Except LoadErr (List (String × JVal)) :=
  match resolve_bot_path dir bot_id with
  | some path => loadDirect dir bot_id path
  | none => loadFromBundles dir bot_id

/-! ### Association-list lemmas -/

lemma alookup_append_some {α : Type} (l₁ l₂ : List (String × α)) (k : String) (v : α)
    (h : alookup l₁ k = some v) : alookup (l₁ ++ l₂) k = some v := by
  induction l₁ with
  | nil => cases h
  | cons p rest ih =>
    obtain ⟨k', w⟩ := p
    rw [List.cons_append, alookup]
    rw [alookup] at h
    split at h
    · next hp => rw [if_pos hp]; exact h
    · next hp => rw [if_neg hp]; exact ih h

lemma alookup_append_none {α : Type} (l₁ l₂ : List (String × α)) (k : String)
    (h : alookup l₁ k = none) : alookup (l₁ ++ l₂) k = alookup l₂ k := by
  induction l₁ with
  | nil => rfl
  | cons p rest ih =>
    obtain ⟨k', w⟩ := p
    rw [List.cons_append, alookup]
    rw [alookup] at h
    split at h
    · cases h
    · next hp => rw [if_neg hp]; exact ih h

lemma alookup_mem {α : Type} (l : List (String × α)) (k : String) (v : α)
    (h : alookup l k = some v) : (k, v) ∈ l := by
  induction l with
  | nil => cases h
  | cons p rest ih =>
    obtain ⟨k', w⟩ := p
    rw [alookup] at h
    split at h
    · next hp =>
      injection h with hw
      rw [← hp, hw]
      exact List.mem_cons_self _ _
    · exact List.mem_cons_of_mem _ (ih h)

lemma alookup_objSetdefault_self (kvs : List (String × JVal)) (k : String) (v : JVal) :
    alookup (objSetdefault kvs k v) k = some ((alookup kvs k).getD v) := by
  unfold objSetdefault
  split
  · next h =>
    obtain ⟨w, hw⟩ := Option.isSome_iff_exists.mp h
    rw [hw]
    rfl
  · next h =>
    have hn : alookup kvs k = none := Option.not_isSome_iff_eq_none.mp h
    rw [alookup_append_none _ _ _ hn, hn, alookup, if_pos rfl]
    rfl

lemma alookup_objSetdefault_other (kvs : List (String × JVal)) (k : String) (v : JVal)
    (k' : String) (hkk : k ≠ k') :
    alookup (objSetdefault kvs k v) k' = alookup kvs k' := by
  unfold objSetdefault
  split
  · rfl
  · cases hl : alookup kvs k' with
    | some w => rw [alookup_append_some _ _ _ _ hl]
    | none =>
      rw [alookup_append_none _ _ _ hl, alookup, if_neg hkk]
      rfl

lemma alookup_setKey_self (kvs : List (String × JVal)) (k : String) (v : JVal)
    (h : (alookup kvs k).isSome) : alookup (setKey kvs k v) k = some v := by
  induction kvs with
  | nil => cases h
  | cons p rest ih =>
    obtain ⟨k', w⟩ := p
    rw [alookup] at h
    unfold setKey
    rw [List.map_cons]
    by_cases hk : k' = k
    · rw [if_pos hk, alookup, if_pos rfl]
    · rw [if_neg hk, alookup, if_neg hk]
      rw [if_neg hk] at h
      exact ih h

lemma alookup_setKey_other (kvs : List (String × JVal)) (k : String) (v : JVal)
    (k' : String) (hkk : k ≠ k') :
    alookup (setKey kvs k v) k' = alookup kvs k' := by
  induction kvs with
  | nil => rfl
  | cons p rest ih =>
    obtain ⟨k'', w⟩ := p
    unfold setKey
    rw [List.map_cons]
    by_cases hk : k'' = k
    · rw [if_pos hk, alookup, if_neg hkk, alookup, if_neg (hk ▸ hkk)]
      exact ih
    · rw [if_neg hk, alookup, alookup]
      split
      · rfl
      · exact ih

lemma alookup_addSlug_some (kvs3 : List (String × JVal)) (variants : List String)
    (k : String) (v : JVal) (h : alookup kvs3 k = some v) :
    alookup (addSlug kvs3 variants) k = some v := by
  unfold addSlug
  split
  · exact h
  · split
    · exact alookup_append_some _ _ _ _ h
    · exact h

lemma alookup_addWhatsapp_some (kvs4 : List (String × JVal)) (variants : List String)
    (k : String) (v : JVal) (h : alookup kvs4 k = some v) :
    alookup (addWhatsapp kvs4 variants) k = some v := by
  unfold addWhatsapp
  split
  · exact h
  · split
    · exact alookup_append_some _ _ _ _ h
    · exact h

lemma alookup_finishDefaults_some (kvs3 : List (String × JVal)) (variants : List String)
    (k : String) (v : JVal) (h : alookup kvs3 k = some v) :
    alookup (finishDefaults kvs3 variants) k = some v :=
  alookup_addWhatsapp_some _ _ _ _ (alookup_addSlug_some _ _ _ _ h)

/-! ### Well-formedness and the spec-side match predicates -/

/-- The `realtime` member of a config object, when present, is an object. -/
def rtOk (kvs : List (String × JVal)) : Prop :=
  ∀ v, alookup kvs "realtime" = some v → ∃ rt, v = JVal.obj rt

/-- The modalities `load_bot` must expose: those of the file's `realtime`
object, or `["audio", "text"]` when the file has none. -/
def modalitiesOf (kvs0 : List (String × JVal)) : JVal :=
  match alookup kvs0 "realtime" with
  | some (.obj rt0) => (alookup rt0 "modalities").getD DEFAULT_MODALITIES
  | _ => DEFAULT_MODALITIES

/-- Modelled from the claim's words: no direct JSON file matches any
normalized variant of `bot_id`. -/
def NoDirectFile (dir : BotsDir) (bot_id : String) : Prop :=
  ∀ v ∈ normalize_keys bot_id, alookup dir.files (v ++ ".json") = none

/-- Modelled from the claim's words: no bundle key matches any normalized
variant of `bot_id` (a match needs a dict value, as in the code). -/
def NoBundleKey (dir : BotsDir) (bot_id : String) : Prop :=
  ∀ f ∈ dir.files, ∀ kvs, f.2 = some (JVal.obj kvs) →
    ∀ v ∈ normalize_keys bot_id, ∀ sub, alookup kvs v ≠ some (JVal.obj sub)

/-- Well-formed bot directory: every file parses to a JSON object whose
`realtime` member, if present, is an object — and likewise for every
object-valued member (the bundle sub-configs). -/
def DirWF (dir : BotsDir) : Prop :=
  ∀ f ∈ dir.files, ∃ kvs, f.2 = some (JVal.obj kvs) ∧ rtOk kvs ∧
    ∀ p ∈ kvs, ∀ sub, p.2 = JVal.obj sub → rtOk sub

lemma applyDefaults_ok (kvs0 : List (String × JVal)) (variants : List String)
    (hrt : rtOk kvs0) :
    ∃ res, applyDefaults kvs0 variants = .ok res ∧
      (alookup res "instructions").isSome ∧
      ∃ rt, alookup res "realtime" = some (.obj rt) ∧
        alookup rt "modalities" = some (modalitiesOf kvs0) := by
  have hrt1 : alookup (objSetdefault kvs0 "instructions" (.obj [])) "realtime"
      = alookup kvs0 "realtime" :=
    alookup_objSetdefault_other _ _ _ _ (by decide)
  have h2self : alookup (objSetdefault (objSetdefault kvs0 "instructions" (.obj []))
        "realtime" (.obj [])) "realtime"
      = some ((alookup (objSetdefault kvs0 "instructions" (.obj [])) "realtime").getD
          (.obj [])) :=
    alookup_objSetdefault_self _ _ _
  obtain ⟨rt0, hrt0, hmod⟩ : ∃ rt0,
      alookup (objSetdefault (objSetdefault kvs0 "instructions" (.obj []))
          "realtime" (.obj [])) "realtime" = some (.obj rt0) ∧
      (alookup rt0 "modalities").getD DEFAULT_MODALITIES = modalitiesOf kvs0 := by
    cases hv : alookup kvs0 "realtime" with
    | none =>
      refine ⟨[], ?_, ?_⟩
      · rw [h2self, hrt1, hv]; rfl
      · simp [modalitiesOf, hv, alookup]
    | some v =>
      obtain ⟨rt0, rfl⟩ := hrt v hv
      refine ⟨rt0, ?_, ?_⟩
      · rw [h2self, hrt1, hv]; rfl
      · simp [modalitiesOf, hv]
  unfold applyDefaults
  rw [hrt0]
  refine ⟨_, rfl, ?_, ?_⟩
  · -- "instructions" survives the whole pipeline
    have hi1 : alookup (objSetdefault kvs0 "instructions" (.obj [])) "instructions"
        = some ((alookup kvs0 "instructions").getD (.obj [])) :=
      alookup_objSetdefault_self _ _ _
    have hi2 : alookup (objSetdefault (objSetdefault kvs0 "instructions" (.obj []))
          "realtime" (.obj [])) "instructions"
        = some ((alookup kvs0 "instructions").getD (.obj [])) := by
      rw [alookup_objSetdefault_other _ _ _ _ (by decide), hi1]
    have hi3 := alookup_setKey_other
      (objSetdefault (objSetdefault kvs0 "instructions" (.obj [])) "realtime" (.obj []))
      "realtime" (.obj (objSetdefault rt0 "modalities" DEFAULT_MODALITIES))
      "instructions" (by decide)
    rw [alookup_finishDefaults_some _ _ _ _ (by rw [hi3, hi2])]
    rfl
  · -- "realtime" carries the defaulted modalities
    refine ⟨objSetdefault rt0 "modalities" DEFAULT_MODALITIES, ?_, ?_⟩
    · apply alookup_finishDefaults_some
      apply alookup_setKey_self
      rw [hrt0]
      rfl
    · rw [alookup_objSetdefault_self, hmod]

lemma resolve_none_iff (dir : BotsDir) (bot_id : String) :
    resolve_bot_path dir bot_id = none ↔ NoDirectFile dir bot_id := by
  unfold resolve_bot_path NoDirectFile
  rw [List.find?_eq_none]
  constructor
  · intro h v hv
    have := h (v ++ ".json") (List.mem_map_of_mem _ hv)
    simpa using this
  · intro h f hf
    obtain ⟨v, hv, rfl⟩ := List.mem_map.mp hf
    simp [h v hv]

lemma objAt_some (kvs : List (String × JVal)) (k : String) (sub : List (String × JVal)) :
    objAt kvs k = some sub ↔ alookup kvs k = some (.obj sub) := by
  unfold objAt
  cases hkv : alookup kvs k with
  | none => simp
  | some w => cases w <;> simp [asObj]

lemma bundleHit_none_obj (keys : List String) (kvs : List (String × JVal))
    (h : bundleHit keys (some (.obj kvs)) = none) :
    ∀ v ∈ keys, ∀ sub, alookup kvs v ≠ some (.obj sub) := by
  intro v hv sub hsub
  have hvsome : (objAt kvs v).isSome = true := by
    rw [(objAt_some _ _ _).mpr hsub]; rfl
  have h' : bundleHitObj keys kvs = none := h
  unfold bundleHitObj at h'
  cases hf : keys.find? (fun k => (objAt kvs k).isSome) with
  | none => exact absurd hvsome (by simpa using List.find?_eq_none.mp hf v hv)
  | some k =>
    rw [hf, Option.some_bind] at h'
    have hk := List.find?_some hf
    rw [h'] at hk
    cases hk

lemma bundleHit_eq_none (keys : List String) (kvs : List (String × JVal))
    (h : ∀ v ∈ keys, ∀ sub, alookup kvs v ≠ some (.obj sub)) :
    bundleHit keys (some (.obj kvs)) = none := by
  show bundleHitObj keys kvs = none
  unfold bundleHitObj
  cases hf : keys.find? (fun k => (objAt kvs k).isSome) with
  | none => rfl
  | some k =>
    exfalso
    have hk := List.find?_some hf
    have hmem := List.mem_of_find?_eq_some hf
    obtain ⟨sub, hsub⟩ := Option.isSome_iff_exists.mp hk
    exact h k hmem sub ((objAt_some _ _ _).mp hsub)

lemma bundleHit_some (keys : List String) (v : Option JVal)
    (sub : List (String × JVal)) (h : bundleHit keys v = some sub) :
    ∃ kvs k, v = some (JVal.obj kvs) ∧ alookup kvs k = some (.obj sub) := by
  cases v with
  | none => exact Option.noConfusion h
  | some w =>
    cases w with
    | obj kvs =>
      have h' : bundleHitObj keys kvs = some sub := h
      unfold bundleHitObj at h'
      cases hf : keys.find? (fun k => (objAt kvs k).isSome) with
      | none => rw [hf] at h'; cases h'
      | some k =>
        rw [hf, Option.some_bind] at h'
        exact ⟨kvs, k, rfl, (objAt_some _ _ _).mp h'⟩
    | null => exact Option.noConfusion h
    | bool b => exact Option.noConfusion h
    | num n => exact Option.noConfusion h
    | str s => exact Option.noConfusion h
    | arr xs => exact Option.noConfusion h

lemma searchBundles_none_iff (keys : List String) (files : List (String × Option JVal)) :
    searchBundles keys files = none ↔ ∀ f ∈ files, bundleHit keys f.2 = none := by
  induction files with
  | nil => simp [searchBundles]
  | cons p rest ih =>
    obtain ⟨n, v⟩ := p
    rw [searchBundles]
    cases hb : bundleHit keys v with
    | some sub =>
      constructor
      · intro h; exact Option.noConfusion h
      · intro h
        have h0 := h (n, v) (List.mem_cons_self _ _)
        rw [hb] at h0
        exact Option.noConfusion h0
    | none =>
      constructor
      · intro h f hf
        rcases List.mem_cons.mp hf with rfl | hf
        · exact hb
        · exact (ih.mp h) f hf
      · intro h
        exact ih.mpr (fun f hf => h f (List.mem_cons_of_mem _ hf))

lemma searchBundles_some (keys : List String) (files : List (String × Option JVal))
    (sub : List (String × JVal)) (h : searchBundles keys files = some sub) :
    ∃ f ∈ files, bundleHit keys f.2 = some sub := by
  induction files with
  | nil => cases h
  | cons p rest ih =>
    obtain ⟨n, v⟩ := p
    rw [searchBundles] at h
    cases hb : bundleHit keys v with
    | some s =>
      rw [hb] at h
      injection h with h'
      exact ⟨(n, v), List.mem_cons_self _ _, h' ▸ hb⟩
    | none =>
      rw [hb] at h
      obtain ⟨f, hf, hfb⟩ := ih h
      exact ⟨f, List.mem_cons_of_mem _ hf, hfb⟩

/-- **C7 (counterexample).** The stated dichotomy fails as soon as a tarjeta
file holds a non-dict `realtime` value: for a directory holding only
`b.json = {"realtime": "x"}`, `load_bot "b"` ends in the `AttributeError` of
`data["realtime"].setdefault(...)` — it neither returns a dict nor raises
`BotConfigNotFound`, although a direct JSON file matches the variant `b`. -/
theorem load_bot_attr_error_cex :
    load_bot ⟨[("b.json", some (.obj [("realtime", .str "x")]))]⟩ "b"
      = .error .attrError ∧
    (∀ kvs, load_bot ⟨[("b.json", some (.obj [("realtime", .str "x")]))]⟩ "b"
      ≠ .ok kvs) ∧
    load_bot ⟨[("b.json", some (.obj [("realtime", .str "x")]))]⟩ "b"
      ≠ .error .botConfigNotFound := by
  have he : load_bot ⟨[("b.json", some (.obj [("realtime", .str "x")]))]⟩ "b"
      = .error .attrError := rfl
  refine ⟨he, ?_, ?_⟩
  · intro kvs h
    rw [he] at h
    exact Except.noConfusion h
  · intro h
    rw [he] at h
    injection h with h'
    exact LoadErr.noConfusion h'

/-- **C7 (amended).** For a well-formed tarjeta directory (every file parses
to a JSON object whose `realtime` member — also inside bundle sub-configs —
is an object when present): `load_bot` either returns an object containing
the keys `instructions` and `realtime`, with `realtime.modalities` present,
or raises `BotConfigNotFound`, and it raises exactly when no direct JSON
file and no bundle key matches any normalized variant of `bot_id`; the
returned modalities are the file's own, defaulting to `["audio", "text"]`
when the file has none. -/
theorem load_bot_spec (dir : BotsDir) (bot_id : String) (hwf : DirWF dir) :
    ((∃ kvs, load_bot dir bot_id = .ok kvs ∧
        (alookup kvs "instructions").isSome ∧
        ∃ rt, alookup kvs "realtime" = some (.obj rt) ∧
          (alookup rt "modalities").isSome) ∨
      load_bot dir bot_id = .error .botConfigNotFound) ∧
    (load_bot dir bot_id = .error .botConfigNotFound ↔
      NoDirectFile dir bot_id ∧ NoBundleKey dir bot_id) ∧
    (∀ kvs0 variants, rtOk kvs0 →
      ∃ res, applyDefaults kvs0 variants = .ok res ∧
        (alookup res "instructions").isSome ∧
        ∃ rt, alookup res "realtime" = some (.obj rt) ∧
          alookup rt "modalities" = some (modalitiesOf kvs0)) := by
  have happ : ∀ kvs0, rtOk kvs0 →
      ∃ res, applyDefaults kvs0 (normalize_keys bot_id) = .ok res ∧
        (alookup res "instructions").isSome ∧
        ∃ rt, alookup res "realtime" = some (.obj rt) ∧
          (alookup rt "modalities").isSome := by
    intro kvs0 h
    obtain ⟨res, h1, h2, rt, h3, h4⟩ := applyDefaults_ok kvs0 (normalize_keys bot_id) h
    exact ⟨res, h1, h2, rt, h3, by rw [h4]; rfl⟩
  have master :
      (∃ kvs, load_bot dir bot_id = .ok kvs ∧
        (alookup kvs "instructions").isSome ∧
        ∃ rt, alookup kvs "realtime" = some (.obj rt) ∧
          (alookup rt "modalities").isSome) ∨
      (load_bot dir bot_id = .error .botConfigNotFound ∧
        NoDirectFile dir bot_id ∧ NoBundleKey dir bot_id) := by
    cases hres : resolve_bot_path dir bot_id with
    | some path =>
      have hl1 : load_bot dir bot_id = loadDirect dir bot_id path := by
        unfold load_bot
        rw [hres]
      have hpred := List.find?_some hres
      obtain ⟨pv, hpv⟩ := Option.isSome_iff_exists.mp hpred
      obtain ⟨kvs, hkvs, hrtok, -⟩ := hwf (path, pv) (alookup_mem _ _ _ hpv)
      have hkvs' : pv = some (JVal.obj kvs) := hkvs
      rw [hkvs'] at hpv
      have hl2 : loadDirect dir bot_id path = applyDefaults kvs (normalize_keys bot_id) := by
        unfold loadDirect
        rw [hpv]
      obtain ⟨res, h1, h2, more⟩ := happ kvs hrtok
      exact Or.inl ⟨res, by rw [hl1, hl2, h1], h2, more⟩
    | none =>
      have hl1 : load_bot dir bot_id = loadFromBundles dir bot_id := by
        unfold load_bot
        rw [hres]
      cases hsb : searchBundles (normalize_keys bot_id) dir.files with
      | some sub =>
        obtain ⟨f, hf, hfb⟩ := searchBundles_some _ _ _ hsb
        obtain ⟨kvs, k, hfv, hsubk⟩ := bundleHit_some _ _ _ hfb
        obtain ⟨kvs', hkvs', -, hsubok⟩ := hwf f hf
        rw [hfv] at hkvs'
        injection hkvs' with h'
        injection h' with h''
        have hrtsub : rtOk sub :=
          hsubok (k, JVal.obj sub) (h'' ▸ alookup_mem _ _ _ hsubk) sub rfl
        have hl2 : loadFromBundles dir bot_id = applyDefaults sub (normalize_keys bot_id) := by
          unfold loadFromBundles
          rw [hsb]
        obtain ⟨res, h1, h2, more⟩ := happ sub hrtsub
        exact Or.inl ⟨res, by rw [hl1, hl2, h1], h2, more⟩
      | none =>
        have hl2 : loadFromBundles dir bot_id = .error .botConfigNotFound := by
          unfold loadFromBundles
          rw [hsb]
        refine Or.inr ⟨by rw [hl1, hl2], resolve_none_iff dir bot_id |>.mp hres, ?_⟩
        intro f hf kvs hkvs v hv sub
        refine bundleHit_none_obj (normalize_keys bot_id) kvs ?_ v hv sub
        have h0 := (searchBundles_none_iff _ _).mp hsb f hf
        rw [hkvs] at h0
        exact h0
  refine ⟨?_, ⟨?_, ?_⟩, fun kvs0 variants h => applyDefaults_ok kvs0 variants h⟩
  · rcases master with h | h
    · exact Or.inl h
    · exact Or.inr h.1
  · intro herr
    rcases master with ⟨kvs, hok, -⟩ | h
    · rw [hok] at herr
      exact Except.noConfusion herr
    · exact h.2
  · rintro ⟨hnd, hnb⟩
    have hres : resolve_bot_path dir bot_id = none := (resolve_none_iff dir bot_id).mpr hnd
    have hsb : searchBundles (normalize_keys bot_id) dir.files = none := by
      rw [searchBundles_none_iff]
      intro f hf
      obtain ⟨kvs, hkvs, -, -⟩ := hwf f hf
      rw [hkvs]
      exact bundleHit_eq_none _ _ (hnb f hf kvs hkvs)
    have hl1 : load_bot dir bot_id = loadFromBundles dir bot_id := by
      unfold load_bot
      rw [hres]
    have hl2 : loadFromBundles dir bot_id = .error .botConfigNotFound := by
      unfold loadFromBundles
      rw [hsb]
    rw [hl1, hl2]

/-- Witness for `load_bot_spec`: a directory holding the single well-formed
tarjeta `bot1.json = {"realtime": {}}`, loaded by its own name. -/
theorem load_bot_spec_witness :
    (∃ kvs, load_bot ⟨[("bot1.json", some (.obj [("realtime", .obj [])]))]⟩ "bot1"
        = .ok kvs ∧
      (alookup kvs "instructions").isSome ∧
      ∃ rt, alookup kvs "realtime" = some (.obj rt) ∧
        (alookup rt "modalities").isSome) ∨
    load_bot ⟨[("bot1.json", some (.obj [("realtime", .obj [])]))]⟩ "bot1"
      = .error .botConfigNotFound := by
  have hwf : DirWF ⟨[("bot1.json", some (.obj [("realtime", .obj [])]))]⟩ := by
    intro f hf
    rcases List.mem_singleton.mp hf with rfl
    refine ⟨[("realtime", .obj [])], rfl, ?_, ?_⟩
    · intro v hv
      injection hv with h'
      exact ⟨[], h'.symm⟩
    · intro p hp sub hsub
      rcases List.mem_singleton.mp hp with rfl
      intro v hv
      exact absurd hv (by cases hsub; intro h; cases h)
  exact (load_bot_spec ⟨[("bot1.json", some (.obj [("realtime", .obj [])]))]⟩ "bot1" hwf).1

end MultiBot
